import Mathlib

/-!
# Verification of the Remote-Desktop relay and its message codec

Shallow embedding of the relay server (`relay/server.py`), the endpoint
agents (`relay/host_agent.py`, `relay/viewer.py`) and the application
message codec (`common/protocol.py`) of the Remote-Desktop repository,
together with theorems settling the specification claims about them.

Conventions of the embedding:
* Byte strings are `List Nat`, each element a byte value.
* Machine integers are `Nat`/`Int`; wrapping is explicit (`% 2 ^ 16` etc.).
* Python functions that can raise are embedded as `Option`/`Except`.
* Wall-clock reads (`time.time()`) become explicit `now` parameters.
* WebSocket transports are identified by a `Nat` handle; sending and
  closing become explicit `Effect` values in the order the code attempts
  them (a `send` wrapped in `try/except pass` is recorded as the attempt).
-/

namespace RemoteDesktop

/-! ## Application message codec — `common/protocol.py` -/

/-- The values of the `MessageType` enum (`protocol.py` lines 22-41):
REGISTER 0x01, REGISTER_ACK 0x02, LOOKUP 0x03, LOOKUP_RESPONSE 0x04,
HEARTBEAT 0x05, HEARTBEAT_ACK 0x06, CONNECT 0x10, CONNECT_ACK 0x11,
DISCONNECT 0x12, FRAME 0x20, INPUT 0x21, ERROR 0xF0. -/
def messageTypeValues : List Nat := [1, 2, 3, 4, 5, 6, 16, 17, 18, 32, 33, 240]

/-- `HEADER_SIZE = struct.calcsize('!BQI') = 13`. -/
def HEADER_SIZE : Nat := 13

/-- `struct` range check for format `B` (unsigned char). -/
def checkB (v : Int) : Option Nat :=
  if 0 ≤ v ∧ v < 256 then some v.toNat else none

/-- `struct` range check for format `H` (unsigned 16-bit, network order). -/
def checkH (v : Int) : Option Nat :=
  if 0 ≤ v ∧ v < 65536 then some v.toNat else none

/-- `struct` range check for format `I` (unsigned 32-bit, network order). -/
def checkI (v : Int) : Option Nat :=
  if 0 ≤ v ∧ v < 4294967296 then some v.toNat else none

/-- Big-endian bytes of a 16-bit value (format `H`, value already checked). -/
def beH (n : Nat) : List Nat := [n / 256, n % 256]

/-- Big-endian bytes of a 32-bit value (format `I`, value already checked). -/
def beI (n : Nat) : List Nat :=
  [n / 16777216, n / 65536 % 256, n / 256 % 256, n % 256]

/-- Big-endian bytes of a 64-bit value (format `Q`, value already checked). -/
def beQ (n : Nat) : List Nat :=
  [n / 72057594037927936, n / 281474976710656 % 256, n / 1099511627776 % 256,
   n / 4294967296 % 256, n / 16777216 % 256, n / 65536 % 256, n / 256 % 256, n % 256]

/-- Recombine two big-endian bytes (format `H`). -/
def deH (a b : Nat) : Nat := a * 256 + b

/-- Recombine four big-endian bytes (format `I`). -/
def deI (a b c d : Nat) : Nat := ((a * 256 + b) * 256 + c) * 256 + d

/-- Recombine eight big-endian bytes (format `Q`). -/
def deQ (a b c d e f g h : Nat) : Nat :=
  ((((((a * 256 + b) * 256 + c) * 256 + d) * 256 + e) * 256 + f) * 256 + g) * 256 + h

/-- `pack_header` (`protocol.py` lines 77-80): `struct.pack('!BQI', msg_type,
timestamp, payload_length)`.  The timestamp is read from the wall clock at
pack time; it is the `now` parameter here.  `struct.pack` raises on
out-of-range values, hence the `Option`. -/
def pack_header (msg_type : Nat) (now : Nat) (payload_length : Nat) : Option (List Nat) :=
  if msg_type < 256 ∧ now < 18446744073709551616 ∧ payload_length < 4294967296 then
    some ([msg_type] ++ beQ now ++ beI payload_length)
  else none

/-- `unpack_header` (`protocol.py` lines 83-88): length check, `struct.unpack`
of the first 13 bytes, then the `MessageType(msg_type)` conversion, which
raises `ValueError` on a byte that is not a defined enum value. -/
def unpack_header (data : List Nat) : Except String (Nat × Nat × Nat) :=
  match data with
  | t :: h1 :: h2 :: h3 :: h4 :: h5 :: h6 :: h7 :: h8 :: l1 :: l2 :: l3 :: l4 :: _ =>
    if messageTypeValues.contains t then
      .ok (t, deQ h1 h2 h3 h4 h5 h6 h7 h8, deI l1 l2 l3 l4)
    else .error (toString t ++ " is not a valid MessageType")
  | _ => .error "Header too short"

/-- `FrameMessage` (`protocol.py` lines 294-312). -/
structure FrameMessage where
  width : Int
  height : Int
  frame_data : List Nat
  frame_number : Int := 0
deriving DecidableEq, Repr

/-- `FrameMessage.pack`: frame header `struct.pack('!HHI', width, height,
frame_number)`, then `pack_header(FRAME, len(payload))` with a fresh
wall-clock timestamp `now`. -/
def FrameMessage.pack (now : Nat) (m : FrameMessage) : Option (List Nat) :=
  match checkH m.width, checkH m.height, checkI m.frame_number with
  | some w, some h, some fn =>
    let payload := beH w ++ beH h ++ beI fn ++ m.frame_data
    match pack_header 32 now payload.length with
    | some hdr => some (hdr ++ payload)
    | none => none
  | _, _, _ => none

/-- `FrameMessage.unpack`: `struct.unpack('!HHI', payload[:8])` (fails on
fewer than 8 bytes), the rest of the payload is the frame data. -/
def FrameMessage.unpack (payload : List Nat) : Except String FrameMessage :=
  match payload with
  | a :: b :: c :: d :: e :: f :: g :: h :: rest =>
    .ok { width := (deH a b : Nat), height := (deH c d : Nat),
          frame_data := rest, frame_number := (deI e f g h : Nat) }
  | _ => .error "unpack requires a buffer of 8 bytes"

/-- `InputMessage` (`protocol.py` lines 315-350).  `event_type` and `button`
are `IntEnum` members in the source; their numeric values are carried here
and validated exactly where the source constructs the enum. -/
structure InputMessage where
  event_type : Int
  x : Int := 0
  y : Int := 0
  button : Int := 0
  key_code : Int := 0
  modifiers : Int := 0
  scroll_delta : Int := 0
deriving DecidableEq, Repr

/-- `InputMessage.pack`: `struct.pack('!BHHBHBH', ...)` over the seven fields
with `scroll_delta & 0xFFFF` (Python `&` of an `int` with `0xFFFF` is the
nonnegative residue mod 2^16), then `pack_header(INPUT, len(payload))` with a
fresh timestamp. -/
def InputMessage.pack (now : Nat) (m : InputMessage) : Option (List Nat) :=
  match checkB m.event_type, checkH m.x, checkH m.y, checkB m.button,
        checkH m.key_code, checkB m.modifiers with
  | some et, some x, some y, some b, some kc, some mo =>
    let sd := (m.scroll_delta % 65536).toNat
    let payload := [et] ++ beH x ++ beH y ++ [b] ++ beH kc ++ [mo] ++ beH sd
    match pack_header 33 now payload.length with
    | some hdr => some (hdr ++ payload)
    | none => none
  | _, _, _, _, _, _ => none

/-- `InputMessage.unpack`: `struct.unpack('!BHHBHBH', payload)` requires
exactly 11 bytes; then `InputEventType(event_type)` (valid values 1-6) and
`MouseButton(button)` (valid values 0-2) each raise `ValueError` on an
undefined value. -/
def InputMessage.unpack (payload : List Nat) : Except String InputMessage :=
  match payload with
  | [et, x1, x2, y1, y2, b, k1, k2, mo, s1, s2] =>
    if 1 ≤ et ∧ et ≤ 6 then
      if b ≤ 2 then
        .ok { event_type := (et : Nat), x := (deH x1 x2 : Nat), y := (deH y1 y2 : Nat),
              button := (b : Nat), key_code := (deH k1 k2 : Nat),
              modifiers := (mo : Nat), scroll_delta := (deH s1 s2 : Nat) }
      else .error (toString b ++ " is not a valid MouseButton")
    else .error (toString et ++ " is not a valid InputEventType")
  | _ => .error "unpack requires a buffer of 11 bytes"

/-- Result of `parse_message`: the structured message.  The nine message
classes whose payload is JSON text are collected under `jsonMsg`; their
decoders are passed to `parse_message` as a parameter (see there). -/
inductive ProtoMsg where
  | frame (m : FrameMessage)
  | input (m : InputMessage)
  | jsonMsg (tag : Nat)
deriving DecidableEq, Repr

/-- The `MESSAGE_CLASSES` dispatch (`protocol.py` lines 376-389) restricted
to the fixed-layout decoders; the JSON-payload decoders (`RegisterMessage`
through `DisconnectMessage` and `ErrorMessage`) are abstracted as the
`jsonDec` parameter — no claim depends on their internals, and the theorems
below hold for every such decoder. -/
def classUnpack (jsonDec : Nat → List Nat → Except String ProtoMsg)
    (t : Nat) (p : List Nat) : Except String ProtoMsg :=
  if t == 32 then (FrameMessage.unpack p).map .frame
  else if t == 33 then (InputMessage.unpack p).map .input
  else jsonDec t p

/-- `parse_message` (`protocol.py` lines 392-413): header-length check,
`unpack_header` (which also validates the type byte), completeness check
against the declared payload length, slicing, the (dead, since
`unpack_header` already validated membership) `MESSAGE_CLASSES` key check,
and the per-type decoder. -/
def parse_message (jsonDec : Nat → List Nat → Except String ProtoMsg)
    (data : List Nat) : Except String (ProtoMsg × List Nat) :=
  if data.length < HEADER_SIZE then .error "Incomplete header"
  else
    match unpack_header data with
    | .error e => .error e
    | .ok (t, _ts, plen) =>
      if data.length < HEADER_SIZE + plen then .error "Incomplete message"
      else
        let payload := (data.drop HEADER_SIZE).take plen
        let remaining := data.drop (HEADER_SIZE + plen)
        if messageTypeValues.contains t then
          match classUnpack jsonDec t payload with
          | .error e => .error e
          | .ok msg => .ok (msg, remaining)
        else .error ("Unknown message type: " ++ toString t)

/-- The declared payload length of a buffer: the big-endian 32-bit field at
offsets 9-12 of the header, as `parse_message` reads it. -/
def declaredLen (data : List Nat) : Nat :=
  deI (data.getD 9 0) (data.getD 10 0) (data.getD 11 0) (data.getD 12 0)

/-! ## Relay server — `relay/server.py` -/

/-- The member table of the `RelayMessageType` enum (`relay/server.py`
lines 42-58).  A lookup of a name that is not a member models the
`AttributeError` Python raises for it (`none`). -/
def relayEnumMember (s : String) : Option Nat :=
  if s = "HOST_REGISTER" then some 1
  else if s = "HOST_REGISTERED" then some 2
  else if s = "CLIENT_JOIN" then some 3
  else if s = "CLIENT_JOINED" then some 4
  else if s = "CLIENT_CONNECTED" then some 5
  else if s = "DISCONNECT" then some 16
  else if s = "ERROR" then some 17
  else if s = "PING" then some 18
  else if s = "PONG" then some 19
  else if s = "RELAY_DATA" then some 32
  else none

/-- Evaluating `RelayMessageType.NAME`: yields the member value or raises
`AttributeError` when the enum has no such member. -/
def enumAttr (s : String) : Except String Nat :=
  match relayEnumMember s with
  | some v => .ok v
  | none => .error ("type object RelayMessageType has no attribute " ++ s)

/-- A relay envelope on the wire: `bytes([tag]) + json.dumps({...})`.  The
JSON object is represented by its ordered key/value pairs (all values in
the envelopes the relay builds are strings). -/
structure Envelope where
  tag : Nat
  fields : List (String × String)
deriving DecidableEq, Repr

/-- An observable transport action of the relay: attempting to send an
envelope on a socket, or closing a socket. -/
inductive Effect where
  | send (ws : Nat) (env : Envelope)
  | close (ws : Nat)
deriving DecidableEq, Repr

/-- `RelaySession` (`relay/server.py` lines 68-88). -/
structure RelaySession where
  session_code : String
  host_ws : Nat
  host_connected_at : Nat := 0
  client_ws : Option Nat := none
  client_connected_at : Option Nat := none
  bytes_relayed_to_client : Nat := 0
  bytes_relayed_to_host : Nat := 0
  frames_relayed : Nat := 0
deriving DecidableEq, Repr

/-- `RelaySession.has_client`. -/
def RelaySession.has_client (s : RelaySession) : Bool := s.client_ws.isSome

/-- The mutable registry of `RelayServer`: `_sessions : code -> session`,
`_ws_to_session : transport -> code`, and the `_total_sessions` counter.
Python dicts are embedded as association lists with unique keys. -/
structure RelayServerState where
  sessions : List (String × RelaySession)
  ws_to_session : List (Nat × String)
  total_sessions : Nat := 0
deriving DecidableEq, Repr

/-- `d[k] = v` on a dict: replace the binding if the key is present,
otherwise append it. -/
def dictSet {K V : Type} [BEq K] (k : K) (v : V) (d : List (K × V)) : List (K × V) :=
  if (List.lookup k d).isSome then
    d.map (fun p => if p.1 == k then (k, v) else p)
  else d ++ [(k, v)]

/-- `d.pop(k, None)` on a dict: the looked-up value and the dict without
the key. -/
def dictPop {K V : Type} [BEq K] (k : K) (d : List (K × V)) :
    Option V × List (K × V) :=
  (List.lookup k d, d.filter (fun p => !(p.1 == k)))

/-- `_send_error` (`relay/server.py` lines 396-404): the `ERROR` envelope
`bytes([ERROR]) + json.dumps({'error': message})`. -/
def errorEnvelope (message : String) : Envelope := ⟨17, [("error", message)]⟩

/-- `str.upper()` (the session codes and the claims involve ASCII only). -/
def pyUpper (s : String) : String := .mk (s.toList.map Char.toUpper)

/-- `str.strip()`: drop leading and trailing whitespace. -/
def pyStrip (s : String) : String :=
  .mk (((s.toList.dropWhile Char.isWhitespace).reverse.dropWhile Char.isWhitespace).reverse)

/-- The normalization `_handle_client_join` applies to the supplied code:
`data.get('session_code', '').upper().strip()`. -/
def normalizeCode (s : String) : String := pyStrip (pyUpper s)

/-- The result of `json.loads` on a `CLIENT_JOIN` payload, abstracted to
what `_handle_client_join` reads from it: `malformed` when `json.loads`
raises or `data.get('session_code', '').upper()` raises (non-object JSON or
a non-string value), otherwise the optional string value of the
`session_code` key. -/
inductive JoinPayload where
  | malformed
  | fields (session_code : Option String)
deriving DecidableEq, Repr

/-- `_handle_client_join` (`relay/server.py` lines 225-274), one step: the
returned effects are the envelopes the relay attempts to send, in order.
In the failure branches the coroutine returns; the trailing `close` effect
records the server closing the rejected socket when the handler returns
(the `finally` clause's `_handle_disconnect` is a no-op there because the
socket was never indexed).  On success the handler continues into the
viewer forward loop, which is outside this step. -/
def handle_client_join (ws : Nat) (payload : JoinPayload) (now : Nat)
    (st : RelayServerState) : RelayServerState × List Effect :=
  match payload with
  | .malformed => (st, [.send ws (errorEnvelope "Invalid join request"), .close ws])
  | .fields sc =>
    let session_code := normalizeCode (sc.getD "")
    if session_code = "" then
      (st, [.send ws (errorEnvelope "Session code required"), .close ws])
    else
      match List.lookup session_code st.sessions with
      | none =>
        (st, [.send ws (errorEnvelope ("Session not found: " ++ session_code)), .close ws])
      | some session =>
        if session.has_client then
          (st, [.send ws (errorEnvelope "Session already has a client connected"), .close ws])
        else
          let session' := { session with client_ws := some ws,
                                         client_connected_at := some now }
          ({ st with sessions := dictSet session_code session' st.sessions,
                     ws_to_session := dictSet ws session_code st.ws_to_session },
           [.send ws ⟨4, [("session_code", session_code), ("message", "Connected to host")]⟩,
            .send session.host_ws ⟨5, [("message", "Client connected")]⟩])

/-- `generate_session_code` draws codes from a secure RNG; the successive
draws are the argument `draws` here.  `_generate_unique_code`
(`relay/server.py` lines 406-412) makes up to 100 draws and returns the
first code not already registered; `none` models the `RuntimeError` raised
after 100 collisions. -/
def generate_unique_code (draws : Nat → String)
    (sessions : List (String × RelaySession)) : Option String :=
  (List.range 100).findSome? fun i =>
    if (List.lookup (draws i) sessions).isSome then none else some (draws i)

/-- `_handle_host_register` (`relay/server.py` lines 190-223): allocate a
code (`RuntimeError`, i.e. `.error`, when allocation exhausts its 100
attempts), create and index the session, bump the counter, parse the
optional JSON payload into `host_info` — which the source never reads, so
the embedding binds and discards the raw payload the same way — and send
the `HOST_REGISTERED` confirmation.  The handler then enters the host
forward loop, outside this step. -/
def handle_host_register (draws : Nat → String) (ws : Nat) (payload : List Nat)
    (now : Nat) (st : RelayServerState) :
    Except String (RelayServerState × List Effect) :=
  match generate_unique_code draws st.sessions with
  | none => .error "Could not generate unique session code"
  | some session_code =>
    let session : RelaySession :=
      { session_code := session_code, host_ws := ws, host_connected_at := now }
    let st' := { st with sessions := dictSet session_code session st.sessions,
                         ws_to_session := dictSet ws session_code st.ws_to_session,
                         total_sessions := st.total_sessions + 1 }
    let _host_info := payload
    .ok (st', [.send ws ⟨2, [("session_code", session_code),
                             ("message", "Share this code with the remote user")]⟩])

/-- `_close_session` (`relay/server.py` lines 364-394): pop the session;
notify and close the viewer transport if attached and drop its reverse
mapping; the host transport reference is never `None` in the source, so
the host is always notified, closed and dropped from the reverse mapping. -/
def close_session (session_code : String) (reason : String)
    (st : RelayServerState) : RelayServerState × List Effect :=
  match dictPop session_code st.sessions with
  | (none, _) => (st, [])
  | (some session, sessions') =>
    let st1 := { st with sessions := sessions' }
    let notif : Envelope := ⟨16, [("reason", reason)]⟩
    let (clientEffs, st2) :=
      match session.client_ws with
      | some c => ([Effect.send c notif, Effect.close c],
                   { st1 with ws_to_session := (dictPop c st1.ws_to_session).2 })
      | none => ([], st1)
    let st3 := { st2 with ws_to_session := (dictPop session.host_ws st2.ws_to_session).2 }
    (st3, clientEffs ++ [Effect.send session.host_ws notif, Effect.close session.host_ws])

/-- `_handle_disconnect` (`relay/server.py` lines 336-362): pop the reverse
mapping; if the closed transport was the session's host, tear the whole
session down via `_close_session`; if it was the viewer, clear only the
viewer slot and notify the host with `DISCONNECT{'message': 'Client
disconnected'}`. -/
def handle_disconnect (ws : Nat) (st : RelayServerState) :
    RelayServerState × List Effect :=
  match dictPop ws st.ws_to_session with
  | (none, wmap') => ({ st with ws_to_session := wmap' }, [])
  | (some session_code, wmap') =>
    let st1 := { st with ws_to_session := wmap' }
    match List.lookup session_code st1.sessions with
    | none => (st1, [])
    | some session =>
      if session.host_ws == ws then
        close_session session_code "Host disconnected" st1
      else if session.client_ws == some ws then
        let session' := { session with client_ws := none }
        ({ st1 with sessions := dictSet session_code session' st1.sessions },
         [.send session.host_ws ⟨16, [("message", "Client disconnected")]⟩])
      else (st1, [])

/-- `_handle_connection` (`relay/server.py` lines 151-188) on a first
message of type `HOST_REGISTER`: on success the handler continues into the
forward loop; when `_generate_unique_code` raises, the generic
`except Exception` clause only logs, the `finally` clause runs
`_handle_disconnect`, and the server closes the socket as the handler
returns — no envelope is sent. -/
def host_register_connection (draws : Nat → String) (ws : Nat)
    (payload : List Nat) (now : Nat) (st : RelayServerState) :
    RelayServerState × List Effect :=
  match handle_host_register draws ws payload now st with
  | .ok (st', effs) => (st', effs)
  | .error _ =>
    let (st', effs) := handle_disconnect ws st
    (st', effs ++ [.close ws])

/-! ## Host agent — `relay/host_agent.py` -/

/-- The flags of `RelayHostAgent` that its receive loop reads and writes,
plus whether a control-approval callback is registered. -/
structure HostState where
  client_connected : Bool := false
  control_granted : Bool := false
  has_control_callback : Bool := false
deriving DecidableEq, Repr

/-- An observable action of the host agent while handling one inbound
message: a `pyautogui` call synthesizing input on the OS, the invocation of
the control-approval callback, or an envelope sent back to the peer. -/
inductive HostAction where
  | moveTo (x y : Int)
  | click (x y : Int) (button : String)
  | press (key : Nat)
  | scroll (delta : Int) (x y : Int)
  | controlCallback
  | sendEnvelope (env : Envelope)
deriving DecidableEq, Repr

/-- `True` exactly for the actions that reach the input-synthesis
collaborator (`pyautogui`). -/
def HostAction.isSynthesis : HostAction → Bool
  | .moveTo _ _ => true
  | .click _ _ _ => true
  | .press _ => true
  | .scroll _ _ _ => true
  | _ => false

/-- `_handle_input` (`host_agent.py` lines 352-380): guarded by
`control_granted` and `PYAUTOGUI_AVAILABLE`; dispatches on the event type.
`MOUSE_UP` is a no-op; `KEY_DOWN` presses `chr(key_code)` when
`key_code < 256` (`chr` of a negative raises `ValueError`, caught by the
surrounding `except`, so nothing is pressed); `MOUSE_SCROLL` folds the
unsigned 16-bit `scroll_delta` into a signed value with
`v if v < 32768 else v - 65536`. -/
def handle_input (pyautogui : Bool) (st : HostState) (m : InputMessage) :
    List HostAction :=
  if !st.control_granted || !pyautogui then []
  else if m.event_type == 1 then [.moveTo m.x m.y]
  else if m.event_type == 2 then
    let button := if m.button == 1 then "right"
                  else if m.button == 2 then "middle" else "left"
    [.click m.x m.y button]
  else if m.event_type == 3 then []
  else if m.event_type == 5 then
    if m.key_code < 256 then
      if 0 ≤ m.key_code then [.press m.key_code.toNat] else []
    else []
  else if m.event_type == 4 then
    let delta := if m.scroll_delta < 32768 then m.scroll_delta
                 else m.scroll_delta - 65536
    [.scroll delta m.x m.y]
  else []

/-- The final `else` branch of the host receive dispatch (`host_agent.py`
lines 240-251): inside `try/except`, parse the message as an application
message and, when it is an `INPUT` whose payload unpacks and
`control_granted` holds, hand it to `_handle_input`; every parse failure is
swallowed. -/
def host_parse_input_branch (pyautogui : Bool) (st : HostState)
    (message : List Nat) : HostState × List HostAction :=
  if HEADER_SIZE ≤ message.length then
    match unpack_header message with
    | .error _ => (st, [])
    | .ok (t, _, plen) =>
      if t == 33 then
        match InputMessage.unpack ((message.drop HEADER_SIZE).take plen) with
        | .error _ => (st, [])
        | .ok im =>
          if st.control_granted then (st, handle_input pyautogui st im) else (st, [])
      else (st, [])
  else (st, [])

/-- `_receive_loop` (`host_agent.py` lines 189-258), one inbound message:
empty messages are skipped; `CLIENT_CONNECTED`, `DISCONNECT` and `ERROR`
are handled; the next two `elif` arms evaluate
`RelayMessageType.REQUEST_CONTROL` / `RelayMessageType.CONTROL_REVOKED`,
names the imported enum does not define, so the attribute lookup raises
(`.error`) for every other first byte before the input-parsing branch; the
bodies of those two arms (and of `_deny_control`, which would itself
evaluate `RelayMessageType.CONTROL_DENIED`) are translated but
unreachable. -/
def host_receive_step (pyautogui : Bool) (st : HostState) (message : List Nat) :
    Except String (HostState × List HostAction) :=
  match message.head? with
  | none => .ok (st, [])
  | some t =>
    if t == 5 then .ok ({ st with client_connected := true, control_granted := false }, [])
    else if t == 16 then
      .ok ({ st with client_connected := false, control_granted := false }, [])
    else if t == 17 then .ok (st, [])
    else
      match enumAttr "REQUEST_CONTROL" with
      | .error e => .error e
      | .ok rc =>
        if t == rc then
          if st.has_control_callback then .ok (st, [.controlCallback])
          else
            match enumAttr "CONTROL_DENIED" with
            | .error e => .error e
            | .ok cd =>
              .ok (st, [.sendEnvelope ⟨cd, [("message", "Host has no UI to approve")]⟩])
        else
          match enumAttr "CONTROL_REVOKED" with
          | .error e => .error e
          | .ok cr =>
            if t == cr then .ok ({ st with control_granted := false }, [])
            else .ok (host_parse_input_branch pyautogui st message)

/-- `RelayHostConfig` (`host_agent.py` lines 50-57) with its defaults. -/
structure RelayHostConfig where
  capture_fps : Nat := 30
  jpeg_quality : Int := 70
  min_quality : Int := 30
  max_quality : Int := 85
deriving DecidableEq, Repr

/-- `self._target_frame_time = 1.0 / config.capture_fps`.  Send times and
the target interval are embedded as exact rationals; the quality bounds do
not depend on how the float comparisons round. -/
def target_frame_time (cfg : RelayHostConfig) : ℚ := 1 / cfg.capture_fps

/-- The adaptive-quality portion of the host agent state:
`_current_quality` and the `_frame_times` sliding window. -/
structure AdaptiveState where
  current_quality : Int
  frame_times : List ℚ
deriving DecidableEq, Repr

/-- The sliding window after recording one send time (`host_agent.py`
lines 310-312): append, then `pop(0)` once the length exceeds 30. -/
def windowAfter (s : AdaptiveState) (send_time : ℚ) : List ℚ :=
  let ft := s.frame_times ++ [send_time]
  if 30 < ft.length then ft.tail else ft

/-- The adaptive-quality update after one send (`host_agent.py` lines
309-327): once the window holds at least 10 samples, compare its mean to
the target frame interval; above 50% of it, drop the quality by 2 with
floor `min_quality`; below 20% of it, raise it by 1 with ceiling
`max_quality`. -/
def quality_update (cfg : RelayHostConfig) (s : AdaptiveState) (send_time : ℚ) :
    AdaptiveState :=
  let ft := windowAfter s send_time
  if 10 ≤ ft.length then
    let avg := ft.sum / (ft.length : ℚ)
    if target_frame_time cfg * (1 / 2) < avg then
      { current_quality := max cfg.min_quality (s.current_quality - 2), frame_times := ft }
    else if avg < target_frame_time cfg * (1 / 5) then
      { current_quality := min cfg.max_quality (s.current_quality + 1), frame_times := ft }
    else { s with frame_times := ft }
  else { s with frame_times := ft }

/-- The initial adaptive state: `_current_quality = config.jpeg_quality`,
empty window. -/
def initial_adaptive (cfg : RelayHostConfig) : AdaptiveState :=
  { current_quality := cfg.jpeg_quality, frame_times := [] }

/-- The quality evolution of `_stream_loop` over a sequence of measured
send times. -/
def stream_quality (cfg : RelayHostConfig) (times : List ℚ) : AdaptiveState :=
  times.foldl (quality_update cfg) (initial_adaptive cfg)

/-! ## Viewer agent — `relay/viewer.py` -/

/-- The flags of `RelayViewer` that its receive loop and `send_input`
read and write; `websocket` is `self._websocket is not None`. -/
structure ViewerState where
  has_control : Bool := false
  control_requested : Bool := false
  running : Bool := true
  websocket : Bool := true
deriving DecidableEq, Repr

/-- An observable action of the viewer while handling one inbound message:
handing a decoded frame to the presentation pipeline, or leaving the
receive loop after a `DISCONNECT`. -/
inductive ViewerAction where
  | presentFrame (m : FrameMessage)
  | stopLoop
deriving DecidableEq, Repr

/-- The trailing frame-parsing code of the viewer receive loop
(`relay/viewer.py` lines 389-402): inside `try/except`, parse the message
as an application message and, when it is a `FRAME` whose payload unpacks,
hand it to decode-and-present; every failure is swallowed. -/
def viewer_parse_frame_branch (st : ViewerState) (message : List Nat) :
    ViewerState × List ViewerAction :=
  if HEADER_SIZE ≤ message.length then
    match unpack_header message with
    | .error _ => (st, [])
    | .ok (t, _, plen) =>
      if t == 32 then
        match FrameMessage.unpack ((message.drop HEADER_SIZE).take plen) with
        | .error _ => (st, [])
        | .ok fm => (st, [.presentFrame fm])
      else (st, [])
  else (st, [])

/-- `receive_loop` (`relay/viewer.py` lines 334-409), one inbound message:
empty messages are skipped; `DISCONNECT` stops the loop; `ERROR` is
logged; the next three `elif` arms evaluate
`RelayMessageType.CONTROL_GRANTED` / `CONTROL_DENIED` / `CONTROL_REVOKED`,
names the imported enum does not define, so the attribute lookup raises
for every other first byte before the frame-parsing code; the bodies of
those arms are translated but unreachable. -/
def viewer_receive_step (st : ViewerState) (message : List Nat) :
    Except String (ViewerState × List ViewerAction) :=
  match message.head? with
  | none => .ok (st, [])
  | some t =>
    if t == 16 then .ok ({ st with running := false }, [.stopLoop])
    else if t == 17 then .ok (st, [])
    else
      match enumAttr "CONTROL_GRANTED" with
      | .error e => .error e
      | .ok g =>
        if t == g then
          .ok ({ st with has_control := true, control_requested := false }, [])
        else
          match enumAttr "CONTROL_DENIED" with
          | .error e => .error e
          | .ok d =>
            if t == d then
              .ok ({ st with has_control := false, control_requested := false }, [])
            else
              match enumAttr "CONTROL_REVOKED" with
              | .error e => .error e
              | .ok r =>
                if t == r then
                  .ok ({ st with has_control := false, control_requested := false }, [])
                else .ok (viewer_parse_frame_branch st message)

/-- `send_input` (`relay/viewer.py` lines 209-215): transmit `msg.pack()`
only when a socket is open and `_has_control` holds; a `pack` failure is
caught by the surrounding `except` and nothing is sent.  Returns the list
of wire messages actually transmitted. -/
def viewer_send_input (st : ViewerState) (now : Nat) (m : InputMessage) :
    List (List Nat) :=
  if st.websocket && st.has_control then
    match m.pack now with
    | some b => [b]
    | none => []
  else []

/-! ## Wellformedness predicates for wire messages -/

/-- The fields of an `InputMessage` as they occur on a well-formed wire
message: every field within its fixed-width range and the enum-valued
bytes among the defined members. -/
def InputInRange (m : InputMessage) : Prop :=
  1 ≤ m.event_type ∧ m.event_type ≤ 6 ∧ 0 ≤ m.x ∧ m.x < 65536 ∧
  0 ≤ m.y ∧ m.y < 65536 ∧ 0 ≤ m.button ∧ m.button ≤ 2 ∧
  0 ≤ m.key_code ∧ m.key_code < 65536 ∧ 0 ≤ m.modifiers ∧ m.modifiers < 256 ∧
  0 ≤ m.scroll_delta ∧ m.scroll_delta < 65536

/-- The fields of a `FrameMessage` as they occur on a well-formed wire
message: dimensions and frame number within their fixed-width ranges and a
payload short enough for the 32-bit length field. -/
def FrameInRange (m : FrameMessage) : Prop :=
  0 ≤ m.width ∧ m.width < 65536 ∧ 0 ≤ m.height ∧ m.height < 65536 ∧
  0 ≤ m.frame_number ∧ m.frame_number < 4294967296 ∧
  8 + m.frame_data.length < 4294967296

/-- `True` exactly for the `send` effects of the relay. -/
def Effect.isSend : Effect → Bool
  | .send _ _ => true
  | .close _ => false

/-- The 11 payload bytes `struct.pack('!BHHBHBH', ...)` produces for an
in-range `InputMessage` (with the masked scroll field). -/
def inputPayloadBytes (m : InputMessage) : List Nat :=
  [m.event_type.toNat] ++ beH m.x.toNat ++ beH m.y.toNat ++ [m.button.toNat] ++
    beH m.key_code.toNat ++ [m.modifiers.toNat] ++ beH (m.scroll_delta % 65536).toNat

/-- The payload bytes `FrameMessage.pack` produces for an in-range
`FrameMessage`: the 8-byte frame header followed by the frame data. -/
def framePayloadBytes (m : FrameMessage) : List Nat :=
  beH m.width.toNat ++ beH m.height.toNat ++ beI m.frame_number.toNat ++ m.frame_data

/-! ## Helper lemmas (association lists, layouts) -/

theorem lookup_filter_self {K V : Type} [BEq K] [LawfulBEq K] (k : K)
    (l : List (K × V)) :
    List.lookup k (l.filter fun p => !(p.1 == k)) = none := by
  induction l with
  | nil => rfl
  | cons a t ih =>
    rcases a with ⟨ak, av⟩
    by_cases h : ak = k
    · simpa [List.filter_cons, h] using ih
    · have hb : (ak == k) = false := beq_false_of_ne h
      have hb' : (k == ak) = false := beq_false_of_ne (Ne.symm h)
      simp [List.filter_cons, hb, List.lookup_cons, hb', ih]

theorem filter_self_of_lookup_none {K V : Type} [BEq K] [LawfulBEq K] (k : K)
    (l : List (K × V)) (h : List.lookup k l = none) :
    l.filter (fun p => !(p.1 == k)) = l := by
  induction l with
  | nil => rfl
  | cons a t ih =>
    rcases a with ⟨ak, av⟩
    rw [List.lookup_cons] at h
    by_cases hk : k = ak
    · simp [hk] at h
    · have hb' : (k == ak) = false := beq_false_of_ne hk
      rw [hb'] at h
      have hb : (ak == k) = false := beq_false_of_ne (Ne.symm hk)
      simp [List.filter_cons, hb, ih h]

theorem lookup_map_replace {K V : Type} [BEq K] [LawfulBEq K] (k : K) (v : V)
    (l : List (K × V)) (h : (List.lookup k l).isSome = true) :
    List.lookup k (l.map fun p => if p.1 == k then (k, v) else p) = some v := by
  induction l with
  | nil => simp at h
  | cons a t ih =>
    rcases a with ⟨ak, av⟩
    by_cases hk : ak = k
    · subst hk
      simp [List.map_cons, List.lookup_cons]
    · have hb : (ak == k) = false := beq_false_of_ne hk
      have hb' : (k == ak) = false := beq_false_of_ne (Ne.symm hk)
      rw [List.lookup_cons, hb'] at h
      simpa [List.map_cons, hb, List.lookup_cons, hb'] using ih h

theorem lookup_dictSet_self {K V : Type} [BEq K] [LawfulBEq K] (k : K) (v : V)
    (l : List (K × V)) (h : (List.lookup k l).isSome = true) :
    List.lookup k (dictSet k v l) = some v := by
  rw [dictSet, if_pos h]
  exact lookup_map_replace k v l h

theorem lookup_filter_ne {K V : Type} [BEq K] [LawfulBEq K] (k k' : K)
    (l : List (K × V)) (h : k' ≠ k) :
    List.lookup k' (l.filter fun p => !(p.1 == k)) = List.lookup k' l := by
  induction l with
  | nil => rfl
  | cons a t ih =>
    rcases a with ⟨ak, av⟩
    by_cases hk : ak = k
    · have hb' : (k' == ak) = false := beq_false_of_ne (by simpa [hk] using h)
      simp [List.filter_cons, hk, List.lookup_cons, hb', ih, beq_false_of_ne h]
    · have hb : (ak == k) = false := beq_false_of_ne hk
      simp [List.filter_cons, hb, List.lookup_cons, ih]

theorem cons_of_succ_le_length {α : Type} (l : List α) (n : Nat)
    (h : n + 1 ≤ l.length) : ∃ a t, l = a :: t ∧ n ≤ t.length := by
  rcases l with _ | ⟨a, t⟩
  · simp at h
  · exact ⟨a, t, rfl, by simpa using h⟩

theorem frame_unpack_isOk (p : List Nat) :
    (FrameMessage.unpack p).isOk = true ↔ 8 ≤ p.length := by
  rcases p with _ | ⟨a, p⟩; · simp [FrameMessage.unpack, Except.isOk, Except.toBool]
  rcases p with _ | ⟨b, p⟩; · simp [FrameMessage.unpack, Except.isOk, Except.toBool]
  rcases p with _ | ⟨c, p⟩; · simp [FrameMessage.unpack, Except.isOk, Except.toBool]
  rcases p with _ | ⟨d, p⟩; · simp [FrameMessage.unpack, Except.isOk, Except.toBool]
  rcases p with _ | ⟨e, p⟩; · simp [FrameMessage.unpack, Except.isOk, Except.toBool]
  rcases p with _ | ⟨f, p⟩; · simp [FrameMessage.unpack, Except.isOk, Except.toBool]
  rcases p with _ | ⟨g, p⟩; · simp [FrameMessage.unpack, Except.isOk, Except.toBool]
  rcases p with _ | ⟨h, p⟩; · simp [FrameMessage.unpack, Except.isOk, Except.toBool]
  simp [FrameMessage.unpack, Except.isOk, Except.toBool]
  try omega

theorem input_unpack_isOk (p : List Nat) :
    (InputMessage.unpack p).isOk = true ↔
      p.length = 11 ∧ 1 ≤ p.getD 0 0 ∧ p.getD 0 0 ≤ 6 ∧ p.getD 5 0 ≤ 2 := by
  rcases p with _ | ⟨a, p⟩; · simp [InputMessage.unpack, Except.isOk, Except.toBool]
  rcases p with _ | ⟨b, p⟩; · simp [InputMessage.unpack, Except.isOk, Except.toBool]
  rcases p with _ | ⟨c, p⟩; · simp [InputMessage.unpack, Except.isOk, Except.toBool]
  rcases p with _ | ⟨d, p⟩; · simp [InputMessage.unpack, Except.isOk, Except.toBool]
  rcases p with _ | ⟨e, p⟩; · simp [InputMessage.unpack, Except.isOk, Except.toBool]
  rcases p with _ | ⟨f, p⟩; · simp [InputMessage.unpack, Except.isOk, Except.toBool]
  rcases p with _ | ⟨g, p⟩; · simp [InputMessage.unpack, Except.isOk, Except.toBool]
  rcases p with _ | ⟨h, p⟩; · simp [InputMessage.unpack, Except.isOk, Except.toBool]
  rcases p with _ | ⟨i, p⟩; · simp [InputMessage.unpack, Except.isOk, Except.toBool]
  rcases p with _ | ⟨j, p⟩; · simp [InputMessage.unpack, Except.isOk, Except.toBool]
  rcases p with _ | ⟨k, p⟩; · simp [InputMessage.unpack, Except.isOk, Except.toBool]
  rcases p with _ | ⟨l, p⟩
  · rw [InputMessage.unpack]
    split_ifs with h1 h2 <;>
      simp [Except.isOk, Except.toBool, List.getD] <;> omega
  · simp [InputMessage.unpack, Except.isOk, Except.toBool]
    try omega

end RemoteDesktop

namespace RemoteDesktop

theorem input_pack_unpack (m : InputMessage) (ts : Nat)
    (h1 : 1 ≤ m.event_type) (h2 : m.event_type ≤ 6)
    (hx1 : 0 ≤ m.x) (hx2 : m.x < 65536) (hy1 : 0 ≤ m.y) (hy2 : m.y < 65536)
    (hb1 : 0 ≤ m.button) (hb2 : m.button ≤ 2)
    (hk1 : 0 ≤ m.key_code) (hk2 : m.key_code < 65536)
    (hm1 : 0 ≤ m.modifiers) (hm2 : m.modifiers < 256)
    (hts : ts < 18446744073709551616) :
    m.pack ts = some ([33] ++ beQ ts ++ beI 11 ++ inputPayloadBytes m) ∧
    InputMessage.unpack (inputPayloadBytes m) =
      .ok { m with scroll_delta := m.scroll_delta % 65536 } := by
  have e1 : checkB m.event_type = some m.event_type.toNat := by
    rw [checkB, if_pos ⟨by omega, by omega⟩]
  have e2 : checkH m.x = some m.x.toNat := by
    rw [checkH, if_pos ⟨hx1, hx2⟩]
  have e3 : checkH m.y = some m.y.toNat := by
    rw [checkH, if_pos ⟨hy1, hy2⟩]
  have e4 : checkB m.button = some m.button.toNat := by
    rw [checkB, if_pos ⟨hb1, by omega⟩]
  have e5 : checkH m.key_code = some m.key_code.toNat := by
    rw [checkH, if_pos ⟨hk1, hk2⟩]
  have e6 : checkB m.modifiers = some m.modifiers.toNat := by
    rw [checkB, if_pos ⟨hm1, hm2⟩]
  have hsd : (0 : Int) ≤ m.scroll_delta % 65536 ∧ m.scroll_delta % 65536 < 65536 := by
    constructor <;> omega
  constructor
  · have hph : pack_header 33 ts 11 = some ([33] ++ beQ ts ++ beI 11) := by
      rw [pack_header, if_pos ⟨by norm_num, hts, by norm_num⟩]
    have hlen : ([m.event_type.toNat] ++ beH m.x.toNat ++ beH m.y.toNat ++ [m.button.toNat] ++
        beH m.key_code.toNat ++ [m.modifiers.toNat] ++
        beH (m.scroll_delta % 65536).toNat).length = 11 := by
      simp [beH]
    simp only [InputMessage.pack, e1, e2, e3, e4, e5, e6, hlen, hph, inputPayloadBytes]
  · have het : m.event_type.toNat ≤ 6 := by omega
    have het1 : 1 ≤ m.event_type.toNat := by omega
    have hbt : m.button.toNat ≤ 2 := by omega
    rw [inputPayloadBytes]
    simp only [beH, List.cons_append, List.nil_append]
    rw [InputMessage.unpack]
    rw [if_pos ⟨het1, het⟩, if_pos hbt]
    have dx : (deH (m.x.toNat / 256) (m.x.toNat % 256) : Int) = m.x := by
      rw [deH]; omega
    have dy : (deH (m.y.toNat / 256) (m.y.toNat % 256) : Int) = m.y := by
      rw [deH]; omega
    have dk : (deH (m.key_code.toNat / 256) (m.key_code.toNat % 256) : Int) = m.key_code := by
      rw [deH]; omega
    have ds : (deH ((m.scroll_delta % 65536).toNat / 256) ((m.scroll_delta % 65536).toNat % 256) : Int) =
        m.scroll_delta % 65536 := by
      rw [deH]; omega
    have de : (m.event_type.toNat : Int) = m.event_type := Int.toNat_of_nonneg (by omega)
    have db : (m.button.toNat : Int) = m.button := Int.toNat_of_nonneg hb1
    have dm : (m.modifiers.toNat : Int) = m.modifiers := Int.toNat_of_nonneg hm1
    rw [dx, dy, dk, ds, de, db, dm]

theorem frame_pack_unpack (m : FrameMessage) (ts : Nat)
    (hw1 : 0 ≤ m.width) (hw2 : m.width < 65536)
    (hh1 : 0 ≤ m.height) (hh2 : m.height < 65536)
    (hf1 : 0 ≤ m.frame_number) (hf2 : m.frame_number < 4294967296)
    (hd : 8 + m.frame_data.length < 4294967296)
    (hts : ts < 18446744073709551616) :
    m.pack ts = some ([32] ++ beQ ts ++ beI (8 + m.frame_data.length) ++ framePayloadBytes m) ∧
    FrameMessage.unpack (framePayloadBytes m) = .ok m := by
  have e1 : checkH m.width = some m.width.toNat := by
    rw [checkH, if_pos ⟨hw1, hw2⟩]
  have e2 : checkH m.height = some m.height.toNat := by
    rw [checkH, if_pos ⟨hh1, hh2⟩]
  have e3 : checkI m.frame_number = some m.frame_number.toNat := by
    rw [checkI, if_pos ⟨hf1, hf2⟩]
  constructor
  · have hph : pack_header 32 ts (8 + m.frame_data.length) =
        some ([32] ++ beQ ts ++ beI (8 + m.frame_data.length)) := by
      rw [pack_header, if_pos ⟨by norm_num, hts, hd⟩]
    have hlen : (beH m.width.toNat ++ beH m.height.toNat ++ beI m.frame_number.toNat ++
        m.frame_data).length = 8 + m.frame_data.length := by
      simp [beH, beI]
      omega
    simp only [FrameMessage.pack, e1, e2, e3, hlen, hph, framePayloadBytes]
  · rw [framePayloadBytes]
    simp only [beH, beI, List.cons_append, List.nil_append]
    rw [FrameMessage.unpack]
    have dw : (deH (m.width.toNat / 256) (m.width.toNat % 256) : Int) = m.width := by
      rw [deH]; omega
    have dh : (deH (m.height.toNat / 256) (m.height.toNat % 256) : Int) = m.height := by
      rw [deH]; omega
    have df : (deI (m.frame_number.toNat / 16777216) (m.frame_number.toNat / 65536 % 256)
        (m.frame_number.toNat / 256 % 256) (m.frame_number.toNat % 256) : Int) = m.frame_number := by
      rw [deI]; omega
    rw [dw, dh, df]

end RemoteDesktop

namespace RemoteDesktop

/-- C1 (amended: the relay's messages are capitalized — "Session code
required", "Session not found: X", "Session already has a client
connected").  Every listed failure mode of a first-message `CLIENT_JOIN`
sends exactly one `ERROR` envelope with the corresponding message on the
joining socket followed by a close, and leaves the session registry — and
hence every existing host/viewer pair — completely unchanged. -/
theorem c1_join_failure_modes :
    (∀ (ws now : Nat) (st : RelayServerState) (sc : Option String),
        normalizeCode (sc.getD "") = "" →
        handle_client_join ws (.fields sc) now st =
          (st, [.send ws (errorEnvelope "Session code required"), .close ws])) ∧
    (∀ (ws now : Nat) (st : RelayServerState) (sc : Option String) (c : String),
        normalizeCode (sc.getD "") = c → c ≠ "" →
        List.lookup c st.sessions = none →
        handle_client_join ws (.fields sc) now st =
          (st, [.send ws (errorEnvelope ("Session not found: " ++ c)), .close ws])) ∧
    (∀ (ws now : Nat) (st : RelayServerState) (sc : Option String) (c : String)
        (sess : RelaySession),
        normalizeCode (sc.getD "") = c → c ≠ "" →
        List.lookup c st.sessions = some sess → sess.has_client = true →
        handle_client_join ws (.fields sc) now st =
          (st, [.send ws (errorEnvelope "Session already has a client connected"),
                .close ws])) := by
  refine ⟨?_, ?_, ?_⟩
  · intro ws now st sc h
    simp [handle_client_join, h]
  · intro ws now st sc c h hne hlk
    simp [handle_client_join, h, hne, hlk]
  · intro ws now st sc c sess h hne hlk hcl
    simp [handle_client_join, h, hne, hlk, hcl]

/-- Witness for C1: the three failure modes evaluated on concrete states. -/
theorem c1_join_failure_modes_witness :
    handle_client_join 7 (.fields (some " ")) 0 ⟨[], [], 0⟩ =
      (⟨[], [], 0⟩, [.send 7 (errorEnvelope "Session code required"), .close 7]) ∧
    handle_client_join 8 (.fields (some " abc123")) 0 ⟨[], [], 0⟩ =
      (⟨[], [], 0⟩, [.send 8 (errorEnvelope "Session not found: ABC123"), .close 8]) ∧
    handle_client_join 9 (.fields (some "AAAAAA")) 0
        ⟨[("AAAAAA", ⟨"AAAAAA", 3, 0, some 5, some 0, 0, 0, 0⟩)],
         [(3, "AAAAAA"), (5, "AAAAAA")], 1⟩ =
      (⟨[("AAAAAA", ⟨"AAAAAA", 3, 0, some 5, some 0, 0, 0, 0⟩)],
        [(3, "AAAAAA"), (5, "AAAAAA")], 1⟩,
       [.send 9 (errorEnvelope "Session already has a client connected"), .close 9]) :=
  ⟨c1_join_failure_modes.1 7 0 ⟨[], [], 0⟩ (some " ") (by decide),
   c1_join_failure_modes.2.1 8 0 ⟨[], [], 0⟩ (some " abc123") "ABC123" (by decide)
     (by decide) rfl,
   c1_join_failure_modes.2.2 9 0 _ (some "AAAAAA") "AAAAAA"
     ⟨"AAAAAA", 3, 0, some 5, some 0, 0, 0, 0⟩ (by decide) (by decide) rfl rfl⟩

/-- Counterexample for C1 as stated: at a concrete join whose payload has no
session code, the message the relay sends is "Session code required" with a
capital S, not the claimed "session code required". -/
theorem c1_message_capitalization :
    handle_client_join 7 (.fields (some "")) 0 ⟨[], [], 0⟩ =
      (⟨[], [], 0⟩, [.send 7 (errorEnvelope "Session code required"), .close 7]) ∧
    "Session code required" ≠ "session code required" := by
  exact ⟨by decide, by decide⟩

/-- C3 (amended): when every one of the 100 draws collides with the
registry — in particular when the registry already holds every possible
code — allocation stops after its 100 bounded attempts and the raised
`RuntimeError` is caught by the generic connection handler, which sends
nothing on the registering socket (no `ERROR` envelope) and closes it; the
registry, the transport index and the counter are left unchanged. -/
theorem c3_allocation_exhaustion :
    ∀ (draws : Nat → String) (ws : Nat) (payload : List Nat) (now : Nat)
      (st : RelayServerState),
      (∀ i, i < 100 → (List.lookup (draws i) st.sessions).isSome = true) →
      List.lookup ws st.ws_to_session = none →
      generate_unique_code draws st.sessions = none ∧
      host_register_connection draws ws payload now st = (st, [.close ws]) := by
  intro draws ws payload now st hall hws
  have hgen : generate_unique_code draws st.sessions = none := by
    rw [generate_unique_code, List.findSome?_eq_none_iff]
    intro i hi
    rw [if_pos (hall i (by simpa using hi))]
  refine ⟨hgen, ?_⟩
  rw [host_register_connection, handle_host_register, hgen]
  simp only [handle_disconnect, dictPop, hws, filter_self_of_lookup_none ws _ hws]
  rfl

/-- Witness for C3: a registry holding the only code the RNG stream ever
produces. -/
theorem c3_allocation_exhaustion_witness :
    generate_unique_code (fun _ => "AAAAAA")
        (⟨[("AAAAAA", ⟨"AAAAAA", 3, 0, none, none, 0, 0, 0⟩)], [(3, "AAAAAA")], 1⟩ :
          RelayServerState).sessions = none ∧
    host_register_connection (fun _ => "AAAAAA") 7 [] 0
        ⟨[("AAAAAA", ⟨"AAAAAA", 3, 0, none, none, 0, 0, 0⟩)], [(3, "AAAAAA")], 1⟩ =
      (⟨[("AAAAAA", ⟨"AAAAAA", 3, 0, none, none, 0, 0, 0⟩)], [(3, "AAAAAA")], 1⟩,
       [.close 7]) :=
  c3_allocation_exhaustion (fun _ => "AAAAAA") 7 [] 0
    ⟨[("AAAAAA", ⟨"AAAAAA", 3, 0, none, none, 0, 0, 0⟩)], [(3, "AAAAAA")], 1⟩
    (fun _ _ => rfl) rfl

/-- Counterexample for C3 as stated: with the registry full relative to the
RNG stream, the connection handling produces only a socket close — no
`ERROR` envelope ("could not allocate code" or otherwise) is ever sent to
the registering socket. -/
theorem c3_no_error_envelope :
    host_register_connection (fun _ => "AAAAAA") 7 [] 0
        ⟨[("AAAAAA", ⟨"AAAAAA", 3, 0, none, none, 0, 0, 0⟩)], [(3, "AAAAAA")], 1⟩ =
      (⟨[("AAAAAA", ⟨"AAAAAA", 3, 0, none, none, 0, 0, 0⟩)], [(3, "AAAAAA")], 1⟩,
       [.close 7]) ∧
    ((host_register_connection (fun _ => "AAAAAA") 7 [] 0
        ⟨[("AAAAAA", ⟨"AAAAAA", 3, 0, none, none, 0, 0, 0⟩)], [(3, "AAAAAA")], 1⟩).2.all
      fun e => !e.isSend) = true := by
  exact ⟨by decide, by decide⟩

end RemoteDesktop

namespace RemoteDesktop

/-- C4: disconnect handling is asymmetric by role.  When the host transport
of a paired session closes, the session is removed from the registry and
the attached viewer is sent `DISCONNECT{'reason': 'Host disconnected'}` and
closed (the already-gone host transport gets the same attempted
notification, recorded as attempted effects).  When the viewer transport
closes, only the viewer slot is cleared — the session stays registered
under the same code with every other field unchanged — and the host is
sent `DISCONNECT{'message': 'Client disconnected'}`; a fresh viewer can
then join again with the same code. -/
theorem c4_disconnect_asymmetry :
    (∀ (st : RelayServerState) (code : String) (sess : RelaySession) (hw c : Nat),
        List.lookup hw st.ws_to_session = some code →
        List.lookup code st.sessions = some sess →
        sess.host_ws = hw → sess.client_ws = some c →
        List.lookup code (handle_disconnect hw st).1.sessions = none ∧
        (handle_disconnect hw st).2 =
          [.send c ⟨16, [("reason", "Host disconnected")]⟩, .close c,
           .send hw ⟨16, [("reason", "Host disconnected")]⟩, .close hw]) ∧
    (∀ (st : RelayServerState) (code : String) (sess : RelaySession) (v : Nat),
        List.lookup v st.ws_to_session = some code →
        List.lookup code st.sessions = some sess →
        sess.client_ws = some v → sess.host_ws ≠ v →
        List.lookup code (handle_disconnect v st).1.sessions =
          some { sess with client_ws := none } ∧
        (handle_disconnect v st).2 =
          [.send sess.host_ws ⟨16, [("message", "Client disconnected")]⟩]) ∧
    (∀ (st : RelayServerState) (code : String) (sess : RelaySession) (v ws2 now2 : Nat),
        List.lookup v st.ws_to_session = some code →
        List.lookup code st.sessions = some sess →
        sess.client_ws = some v → sess.host_ws ≠ v →
        normalizeCode code = code → code ≠ "" →
        (handle_client_join ws2 (.fields (some code)) now2 (handle_disconnect v st).1).2 =
          [.send ws2 ⟨4, [("session_code", code), ("message", "Connected to host")]⟩,
           .send sess.host_ws ⟨5, [("message", "Client connected")]⟩]) := by
  have hviewer : ∀ (st : RelayServerState) (code : String) (sess : RelaySession) (v : Nat),
      List.lookup v st.ws_to_session = some code →
      List.lookup code st.sessions = some sess →
      sess.client_ws = some v → sess.host_ws ≠ v →
      handle_disconnect v st =
        ({ st with ws_to_session := st.ws_to_session.filter (fun p => !(p.1 == v)),
                   sessions := dictSet code { sess with client_ws := none } st.sessions },
         [.send sess.host_ws ⟨16, [("message", "Client disconnected")]⟩]) := by
    intro st code sess v hv hc hcw hhw
    have hb : (sess.host_ws == v) = false := beq_false_of_ne hhw
    simp only [handle_disconnect, dictPop, hv, hc, hb, Bool.false_eq_true, if_false, hcw]
    simp
  refine ⟨?_, ?_, ?_⟩
  · intro st code sess hw c hv hc hhw hcw
    simp only [handle_disconnect, dictPop, hv, hc, hhw, beq_self_eq_true, if_true,
               close_session, hcw]
    exact ⟨lookup_filter_self code st.sessions, rfl⟩
  · intro st code sess v hv hc hcw hhw
    rw [hviewer st code sess v hv hc hcw hhw]
    refine ⟨?_, rfl⟩
    exact lookup_dictSet_self code _ st.sessions (by simp [hc])
  · intro st code sess v ws2 now2 hv hc hcw hhw hnorm hne
    rw [hviewer st code sess v hv hc hcw hhw]
    have hlk : List.lookup code
        (dictSet code { sess with client_ws := none } st.sessions) =
        some { sess with client_ws := none } :=
      lookup_dictSet_self code _ st.sessions (by simp [hc])
    simp [handle_client_join, hnorm, hne, hlk, RelaySession.has_client]

/-- Witness for C4: a concrete paired session (host transport 3, viewer 5),
closing the host, closing the viewer, and a re-join after the latter. -/
theorem c4_disconnect_asymmetry_witness :
    (List.lookup "AAAAAA" (handle_disconnect 3
        ⟨[("AAAAAA", ⟨"AAAAAA", 3, 0, some 5, some 2, 0, 0, 0⟩)],
         [(3, "AAAAAA"), (5, "AAAAAA")], 1⟩).1.sessions = none ∧
      (handle_disconnect 3
        ⟨[("AAAAAA", ⟨"AAAAAA", 3, 0, some 5, some 2, 0, 0, 0⟩)],
         [(3, "AAAAAA"), (5, "AAAAAA")], 1⟩).2 =
        [.send 5 ⟨16, [("reason", "Host disconnected")]⟩, .close 5,
         .send 3 ⟨16, [("reason", "Host disconnected")]⟩, .close 3]) ∧
    (List.lookup "AAAAAA" (handle_disconnect 5
        ⟨[("AAAAAA", ⟨"AAAAAA", 3, 0, some 5, some 2, 0, 0, 0⟩)],
         [(3, "AAAAAA"), (5, "AAAAAA")], 1⟩).1.sessions =
        some ⟨"AAAAAA", 3, 0, none, some 2, 0, 0, 0⟩ ∧
      (handle_disconnect 5
        ⟨[("AAAAAA", ⟨"AAAAAA", 3, 0, some 5, some 2, 0, 0, 0⟩)],
         [(3, "AAAAAA"), (5, "AAAAAA")], 1⟩).2 =
        [.send 3 ⟨16, [("message", "Client disconnected")]⟩]) ∧
    (handle_client_join 9 (.fields (some "AAAAAA")) 4 (handle_disconnect 5
        ⟨[("AAAAAA", ⟨"AAAAAA", 3, 0, some 5, some 2, 0, 0, 0⟩)],
         [(3, "AAAAAA"), (5, "AAAAAA")], 1⟩).1).2 =
      [.send 9 ⟨4, [("session_code", "AAAAAA"), ("message", "Connected to host")]⟩,
       .send 3 ⟨5, [("message", "Client connected")]⟩] :=
  ⟨c4_disconnect_asymmetry.1 _ "AAAAAA" ⟨"AAAAAA", 3, 0, some 5, some 2, 0, 0, 0⟩ 3 5
      rfl rfl rfl rfl,
   c4_disconnect_asymmetry.2.1 _ "AAAAAA" ⟨"AAAAAA", 3, 0, some 5, some 2, 0, 0, 0⟩ 5
      rfl rfl rfl (by decide),
   c4_disconnect_asymmetry.2.2 _ "AAAAAA" ⟨"AAAAAA", 3, 0, some 5, some 2, 0, 0, 0⟩ 5 9 4
      rfl rfl rfl (by decide) (by decide) (by decide)⟩

/-- C10: host registration is payload-independent — for every two payloads
(empty, non-JSON, or arbitrary JSON) the handler's result is identical —
and whenever code allocation succeeds it creates the session, indexes it by
code and by transport, bumps the counter, and replies `HOST_REGISTERED`
with the code. -/
theorem c10_register_payload_ignored :
    (∀ (draws : Nat → String) (ws : Nat) (p q : List Nat) (now : Nat)
        (st : RelayServerState),
        handle_host_register draws ws p now st = handle_host_register draws ws q now st) ∧
    (∀ (draws : Nat → String) (ws : Nat) (payload : List Nat) (now : Nat)
        (st : RelayServerState) (code : String),
        generate_unique_code draws st.sessions = some code →
        handle_host_register draws ws payload now st =
          .ok ({ st with sessions := dictSet code ⟨code, ws, now, none, none, 0, 0, 0⟩
                           st.sessions,
                         ws_to_session := dictSet ws code st.ws_to_session,
                         total_sessions := st.total_sessions + 1 },
               [.send ws ⟨2, [("session_code", code),
                              ("message", "Share this code with the remote user")]⟩])) := by
  refine ⟨?_, ?_⟩
  · intro draws ws p q now st
    rfl
  · intro draws ws payload now st code h
    simp [handle_host_register, h]

/-- Witness for C10: registration into an empty registry with a junk
payload. -/
theorem c10_register_payload_ignored_witness :
    handle_host_register (fun _ => "BBBBBB") 3 [255, 1, 2] 0 ⟨[], [], 0⟩ =
      .ok (⟨[("BBBBBB", ⟨"BBBBBB", 3, 0, none, none, 0, 0, 0⟩)], [(3, "BBBBBB")], 1⟩,
           [.send 3 ⟨2, [("session_code", "BBBBBB"),
                         ("message", "Share this code with the remote user")]⟩]) := by
  have h := c10_register_payload_ignored.2 (fun _ => "BBBBBB") 3 [255, 1, 2] 0
    ⟨[], [], 0⟩ "BBBBBB" (by decide)
  exact h

end RemoteDesktop

namespace RemoteDesktop

theorem host_step_unknown (pya : Bool) (st : HostState) (t : Nat) (rest : List Nat)
    (h5 : t ≠ 5) (h16 : t ≠ 16) (h17 : t ≠ 17) :
    host_receive_step pya st (t :: rest) =
      .error "type object RelayMessageType has no attribute REQUEST_CONTROL" := by
  have b5 : (t == 5) = false := by simpa using h5
  have b16 : (t == 16) = false := by simpa using h16
  have b17 : (t == 17) = false := by simpa using h17
  simp only [host_receive_step, List.head?, b5, b16, b17, Bool.false_eq_true,
             if_false, enumAttr, relayEnumMember]
  rfl

theorem viewer_step_unknown (st : ViewerState) (t : Nat) (rest : List Nat)
    (h16 : t ≠ 16) (h17 : t ≠ 17) :
    viewer_receive_step st (t :: rest) =
      .error "type object RelayMessageType has no attribute CONTROL_GRANTED" := by
  have b16 : (t == 16) = false := by simpa using h16
  have b17 : (t == 17) = false := by simpa using h17
  simp only [viewer_receive_step, List.head?, b16, b17, Bool.false_eq_true,
             if_false, enumAttr, relayEnumMember]
  rfl

/-- C5: the control-signal names `REQUEST_CONTROL`, `CONTROL_GRANTED`,
`CONTROL_DENIED` and `CONTROL_REVOKED` are not members of the
`RelayMessageType` enum the endpoint agents import, so on any inbound
nonempty message whose first byte is not an envelope tag handled earlier in
the dispatch (`CLIENT_CONNECTED`/`DISCONNECT`/`ERROR` for the host,
`DISCONNECT`/`ERROR` for the viewer) the receive dispatch raises an
attribute-lookup error before the Frame/Input parsing branch is reached:
the dispatch is not total. -/
theorem c5_dispatch_not_total :
    relayEnumMember "REQUEST_CONTROL" = none ∧
    relayEnumMember "CONTROL_GRANTED" = none ∧
    relayEnumMember "CONTROL_DENIED" = none ∧
    relayEnumMember "CONTROL_REVOKED" = none ∧
    (∀ (pya : Bool) (st : HostState) (msg : List Nat) (t : Nat),
        msg.head? = some t → t ≠ 5 → t ≠ 16 → t ≠ 17 →
        host_receive_step pya st msg =
          .error "type object RelayMessageType has no attribute REQUEST_CONTROL") ∧
    (∀ (st : ViewerState) (msg : List Nat) (t : Nat),
        msg.head? = some t → t ≠ 16 → t ≠ 17 →
        viewer_receive_step st msg =
          .error "type object RelayMessageType has no attribute CONTROL_GRANTED") := by
  refine ⟨rfl, rfl, rfl, rfl, ?_, ?_⟩
  · intro pya st msg t hmsg h5 h16 h17
    rcases msg with _ | ⟨t0, rest⟩
    · simp at hmsg
    · simp only [List.head?, Option.some.injEq] at hmsg
      subst hmsg
      exact host_step_unknown pya st t0 rest h5 h16 h17
  · intro st msg t hmsg h16 h17
    rcases msg with _ | ⟨t0, rest⟩
    · simp at hmsg
    · simp only [List.head?, Option.some.injEq] at hmsg
      subst hmsg
      exact viewer_step_unknown st t0 rest h16 h17

/-- Witness for C5: an application `INPUT` message (first byte 0x21) at the
host and a `CLIENT_JOINED` tag (0x04) at the viewer both abort the
dispatch. -/
theorem c5_dispatch_not_total_witness :
    host_receive_step true ⟨false, false, false⟩ [33, 0, 0] =
      .error "type object RelayMessageType has no attribute REQUEST_CONTROL" ∧
    viewer_receive_step ⟨false, false, true, true⟩ [4] =
      .error "type object RelayMessageType has no attribute CONTROL_GRANTED" :=
  ⟨c5_dispatch_not_total.2.2.2.2.1 true ⟨false, false, false⟩ [33, 0, 0] 33 rfl
      (by decide) (by decide) (by decide),
   c5_dispatch_not_total.2.2.2.2.2 ⟨false, false, true, true⟩ [4] 4 rfl
      (by decide) (by decide)⟩

/-- C6 (amended): with the control flag false no input ever reaches the
input-synthesis collaborator — every successfully handled inbound message
produces no synthesis action (in fact the dispatch aborts with an
attribute-lookup error before its Input branch instead of silently
dropping the message, see the counterexample), and `_handle_input` itself
performs nothing when `control_granted` is false; the viewer transmits an
Input message only while its own control flag is true. -/
theorem c6_control_gating :
    (∀ (pya : Bool) (st : HostState) (msg : List Nat) (out : HostState × List HostAction),
        st.control_granted = false → host_receive_step pya st msg = .ok out →
        (out.2.all fun a => !a.isSynthesis) = true) ∧
    (∀ (pya : Bool) (st : HostState) (m : InputMessage),
        st.control_granted = false → handle_input pya st m = []) ∧
    (∀ (st : ViewerState) (now : Nat) (m : InputMessage),
        st.has_control = false → viewer_send_input st now m = []) := by
  refine ⟨?_, ?_, ?_⟩
  · intro pya st msg out hc h
    rcases msg with _ | ⟨t, rest⟩
    · rw [host_receive_step] at h
      injection h with h'
      rw [← h']
      rfl
    · by_cases h5 : t = 5
      · subst h5
        rw [host_receive_step] at h
        simp only [List.head?] at h
        injection h with h'
        rw [← h']
        rfl
      · by_cases h16 : t = 16
        · subst h16
          rw [host_receive_step] at h
          simp only [List.head?] at h
          injection h with h'
          rw [← h']
          rfl
        · by_cases h17 : t = 17
          · subst h17
            rw [host_receive_step] at h
            simp only [List.head?] at h
            injection h with h'
            rw [← h']
            rfl
          · rw [host_step_unknown pya st t rest h5 h16 h17] at h
            exact Except.noConfusion h
  · intro pya st m hc
    simp [handle_input, hc]
  · intro st now m hc
    simp [viewer_send_input, hc]

/-- Witness for C6: the host with control off handling `CLIENT_CONNECTED`
produces no synthesis action; `_handle_input` with control off ignores a
scroll event; the viewer with control off sends nothing. -/
theorem c6_control_gating_witness :
    (([] : List HostAction).all fun a => !a.isSynthesis) = true ∧
    handle_input true ⟨true, false, false⟩ ⟨4, 1, 1, 0, 0, 0, 3⟩ = [] ∧
    viewer_send_input ⟨false, false, true, true⟩ 0 ⟨1, 2, 3, 0, 0, 0, 0⟩ = [] :=
  ⟨c6_control_gating.1 true ⟨false, false, false⟩ [5] (⟨true, false, false⟩, []) rfl rfl,
   c6_control_gating.2.1 true ⟨true, false, false⟩ ⟨4, 1, 1, 0, 0, 0, 3⟩ rfl,
   c6_control_gating.2.2 ⟨false, false, true, true⟩ 0 ⟨1, 2, 3, 0, 0, 0, 0⟩ rfl⟩

/-- Counterexample for C6 as stated: a genuine Input wire message arriving
at a host whose control flag is false is not silently dropped — the
dispatch aborts with the attribute-lookup error (and the receive loop
terminates). -/
theorem c6_not_silent :
    InputMessage.pack 0 { event_type := 1, x := 5, y := 5 } =
      some [33, 0, 0, 0, 0, 0, 0, 0, 0, 0, 0, 0, 11, 1, 0, 5, 0, 5, 0, 0, 0, 0, 0, 0] ∧
    host_receive_step true ⟨true, false, false⟩
        [33, 0, 0, 0, 0, 0, 0, 0, 0, 0, 0, 0, 11, 1, 0, 5, 0, 5, 0, 0, 0, 0, 0, 0] =
      .error "type object RelayMessageType has no attribute REQUEST_CONTROL" := by
  exact ⟨by decide, rfl⟩

end RemoteDesktop

namespace RemoteDesktop

/-- C7 (amended): once the sliding window holds at least 10 samples, a send
after which the window mean exceeds 50% of the target frame interval sets
the quality to `max min_quality (q - 2)` and one after which the mean is
below 20% of it sets it to `min max_quality (q + 1)`; and whenever the
initial configured quality lies within `[min_quality, max_quality]`
(defaults 30 and 85) the quality stays within those bounds over every
sequence of send times.  (An initial quality outside the band violates the
bounds — see the counterexample.) -/
theorem c7_adaptive_quality :
    (∀ (cfg : RelayHostConfig) (s : AdaptiveState) (t : ℚ),
        10 ≤ (windowAfter s t).length →
        target_frame_time cfg * (1 / 2) <
          (windowAfter s t).sum / ((windowAfter s t).length : ℚ) →
        (quality_update cfg s t).current_quality =
          max cfg.min_quality (s.current_quality - 2)) ∧
    (∀ (cfg : RelayHostConfig) (s : AdaptiveState) (t : ℚ),
        10 ≤ (windowAfter s t).length →
        ¬(target_frame_time cfg * (1 / 2) <
            (windowAfter s t).sum / ((windowAfter s t).length : ℚ)) →
        (windowAfter s t).sum / ((windowAfter s t).length : ℚ) <
          target_frame_time cfg * (1 / 5) →
        (quality_update cfg s t).current_quality =
          min cfg.max_quality (s.current_quality + 1)) ∧
    (∀ (cfg : RelayHostConfig) (q0 : Int) (fts ts : List ℚ),
        cfg.min_quality ≤ cfg.max_quality →
        cfg.min_quality ≤ q0 → q0 ≤ cfg.max_quality →
        cfg.min_quality ≤ (ts.foldl (quality_update cfg) ⟨q0, fts⟩).current_quality ∧
        (ts.foldl (quality_update cfg) ⟨q0, fts⟩).current_quality ≤ cfg.max_quality) := by
  refine ⟨?_, ?_, ?_⟩
  · intro cfg s t hlen havg
    simp only [quality_update]
    rw [if_pos hlen, if_pos havg]
  · intro cfg s t hlen hno havg
    simp only [quality_update]
    rw [if_pos hlen, if_neg hno, if_pos havg]
  · intro cfg q0 fts ts hb h0 h1
    induction ts generalizing q0 fts with
    | nil => exact ⟨h0, h1⟩
    | cons t ts ih =>
      rw [List.foldl_cons]
      have hstep : cfg.min_quality ≤ (quality_update cfg ⟨q0, fts⟩ t).current_quality ∧
          (quality_update cfg ⟨q0, fts⟩ t).current_quality ≤ cfg.max_quality := by
        simp only [quality_update]
        split_ifs <;> simp <;> omega
      have h := ih (quality_update cfg ⟨q0, fts⟩ t).current_quality
        (quality_update cfg ⟨q0, fts⟩ t).frame_times hstep.1 hstep.2
      exact h

/-- Witness for C7: a slow send on a full window decrements with floor; a
fast send increments with ceiling; and the quality after ten slow sends
from the default configuration remains within the default bounds. -/
theorem c7_adaptive_quality_witness :
    (quality_update ⟨30, 70, 30, 85⟩ ⟨70, List.replicate 9 1⟩ 1).current_quality =
      max (30 : Int) (70 - 2) ∧
    (quality_update ⟨30, 70, 30, 85⟩ ⟨70, List.replicate 9 0⟩ 0).current_quality =
      min (85 : Int) (70 + 1) ∧
    ((30 : Int) ≤ ((List.replicate 10 (1 : ℚ)).foldl
        (quality_update ⟨30, 70, 30, 85⟩) ⟨70, []⟩).current_quality ∧
      ((List.replicate 10 (1 : ℚ)).foldl
        (quality_update ⟨30, 70, 30, 85⟩) ⟨70, []⟩).current_quality ≤ 85) :=
  ⟨c7_adaptive_quality.1 ⟨30, 70, 30, 85⟩ ⟨70, List.replicate 9 1⟩ 1
      (by norm_num [windowAfter])
      (by norm_num [windowAfter, target_frame_time, List.replicate]),
   c7_adaptive_quality.2.1 ⟨30, 70, 30, 85⟩ ⟨70, List.replicate 9 0⟩ 0
      (by norm_num [windowAfter])
      (by norm_num [windowAfter, target_frame_time, List.replicate])
      (by norm_num [windowAfter, target_frame_time, List.replicate]),
   c7_adaptive_quality.2.2 ⟨30, 70, 30, 85⟩ 70 [] (List.replicate 10 1)
      (by norm_num) (by norm_num) (by norm_num)⟩

/-- Counterexample for C7 as stated: the CLI accepts any initial quality in
1..100, and with `jpeg_quality = 100` the streamed quality after ten slow
sends is 98, strictly above `max_quality = 85` — the claimed "at all times"
bound fails for initial qualities outside the band. -/
theorem c7_initial_quality_violation :
    (stream_quality ⟨30, 100, 30, 85⟩ (List.replicate 10 1)).current_quality = 98 ∧
    (⟨30, 100, 30, 85⟩ : RelayHostConfig).max_quality = 85 ∧
    1 ≤ (⟨30, 100, 30, 85⟩ : RelayHostConfig).jpeg_quality ∧
    (⟨30, 100, 30, 85⟩ : RelayHostConfig).jpeg_quality ≤ 100 ∧
    ¬((98 : Int) ≤ 85) := by
  refine ⟨?_, rfl, by decide, by decide, by decide⟩
  norm_num [stream_quality, initial_adaptive, quality_update, windowAfter,
            target_frame_time, List.replicate]

end RemoteDesktop

namespace RemoteDesktop

/-- C2 (amended): decoding a well-formed Frame or Input wire message and
re-packing it reproduces the structured fields, the type byte, the payload
length and the entire payload bit-exact — in particular any scroll value —
and re-packing at the millisecond of the original timestamp reproduces the
full 13-byte header too; but `pack` stamps the wall clock at pack time, so
re-packing at a different millisecond changes the timestamp bytes of the
header (see the counterexample): the round trip is not bit-exact on the
full message. -/
theorem c2_codec_roundtrip :
    (∀ (m : InputMessage) (ts : Nat), InputInRange m → ts < 18446744073709551616 →
      ∃ w, m.pack ts = some w ∧
        InputMessage.unpack (w.drop HEADER_SIZE) = .ok m ∧
        ∀ ts', ts' < 18446744073709551616 → ∃ w', m.pack ts' = some w' ∧
          w'.head? = w.head? ∧ w'.drop 9 = w.drop 9) ∧
    (∀ (m : FrameMessage) (ts : Nat), FrameInRange m → ts < 18446744073709551616 →
      ∃ w, m.pack ts = some w ∧
        FrameMessage.unpack (w.drop HEADER_SIZE) = .ok m ∧
        ∀ ts', ts' < 18446744073709551616 → ∃ w', m.pack ts' = some w' ∧
          w'.head? = w.head? ∧ w'.drop 9 = w.drop 9) := by
  constructor
  · intro m ts h hts
    obtain ⟨h1, h2, hx1, hx2, hy1, hy2, hb1, hb2, hk1, hk2, hm1, hm2, hs1, hs2⟩ := h
    obtain ⟨hp, hu⟩ :=
      input_pack_unpack m ts h1 h2 hx1 hx2 hy1 hy2 hb1 hb2 hk1 hk2 hm1 hm2 hts
    refine ⟨_, hp, ?_, ?_⟩
    · have hdrop : ([33] ++ beQ ts ++ beI 11 ++ inputPayloadBytes m).drop HEADER_SIZE =
          inputPayloadBytes m := by
        simp [beQ, beI, HEADER_SIZE]
      rw [hdrop, hu]
      have hmod : m.scroll_delta % 65536 = m.scroll_delta := Int.emod_eq_of_lt hs1 hs2
      rw [hmod]
    · intro ts' hts'
      obtain ⟨hp', _⟩ :=
        input_pack_unpack m ts' h1 h2 hx1 hx2 hy1 hy2 hb1 hb2 hk1 hk2 hm1 hm2 hts'
      refine ⟨_, hp', ?_, ?_⟩
      · simp [beQ]
      · simp [beQ, beI]
  · intro m ts h hts
    obtain ⟨hw1, hw2, hh1, hh2, hf1, hf2, hd⟩ := h
    obtain ⟨hp, hu⟩ := frame_pack_unpack m ts hw1 hw2 hh1 hh2 hf1 hf2 hd hts
    refine ⟨_, hp, ?_, ?_⟩
    · have hdrop : ([32] ++ beQ ts ++ beI (8 + m.frame_data.length) ++
          framePayloadBytes m).drop HEADER_SIZE = framePayloadBytes m := by
        simp [beQ, beI, HEADER_SIZE]
      rw [hdrop, hu]
    · intro ts' hts'
      obtain ⟨hp', _⟩ := frame_pack_unpack m ts' hw1 hw2 hh1 hh2 hf1 hf2 hd hts'
      refine ⟨_, hp', ?_, ?_⟩
      · simp [beQ]
      · simp [beQ, beI]

/-- Witness for C2: a concrete Input message (a scroll of 65533, the wire
form of -3) and a concrete Frame message round-tripped at timestamp 5. -/
theorem c2_codec_roundtrip_witness :
    (∃ w, InputMessage.pack 5 ⟨4, 1, 2, 1, 65, 3, 65533⟩ = some w ∧
      InputMessage.unpack (w.drop HEADER_SIZE) = .ok ⟨4, 1, 2, 1, 65, 3, 65533⟩ ∧
      ∀ ts', ts' < 18446744073709551616 →
        ∃ w', InputMessage.pack ts' ⟨4, 1, 2, 1, 65, 3, 65533⟩ = some w' ∧
          w'.head? = w.head? ∧ w'.drop 9 = w.drop 9) ∧
    (∃ w, FrameMessage.pack 5 ⟨2, 3, [9, 9], 1⟩ = some w ∧
      FrameMessage.unpack (w.drop HEADER_SIZE) = .ok ⟨2, 3, [9, 9], 1⟩ ∧
      ∀ ts', ts' < 18446744073709551616 →
        ∃ w', FrameMessage.pack ts' ⟨2, 3, [9, 9], 1⟩ = some w' ∧
          w'.head? = w.head? ∧ w'.drop 9 = w.drop 9) :=
  ⟨c2_codec_roundtrip.1 ⟨4, 1, 2, 1, 65, 3, 65533⟩ 5
      ⟨by decide, by decide, by decide, by decide, by decide, by decide, by decide,
       by decide, by decide, by decide, by decide, by decide, by decide, by decide⟩
      (by decide),
   c2_codec_roundtrip.2 ⟨2, 3, [9, 9], 1⟩ 5
      ⟨by decide, by decide, by decide, by decide, by decide, by decide, by decide⟩
      (by decide)⟩

/-- Counterexample for C2 as stated: re-packing the decoded message one
millisecond later yields different bytes — the regenerated header
timestamp breaks the claimed bit-exact identity. -/
theorem c2_not_bit_exact :
    InputMessage.pack 0 { event_type := 1 } =
      some [33, 0, 0, 0, 0, 0, 0, 0, 0, 0, 0, 0, 11, 1, 0, 0, 0, 0, 0, 0, 0, 0, 0, 0] ∧
    InputMessage.unpack [1, 0, 0, 0, 0, 0, 0, 0, 0, 0, 0] = .ok { event_type := 1 } ∧
    InputMessage.pack 1 { event_type := 1 } =
      some [33, 0, 0, 0, 0, 0, 0, 0, 1, 0, 0, 0, 11, 1, 0, 0, 0, 0, 0, 0, 0, 0, 0, 0] ∧
    ([33, 0, 0, 0, 0, 0, 0, 0, 1, 0, 0, 0, 11, 1, 0, 0, 0, 0, 0, 0, 0, 0, 0, 0] :
        List Nat) ≠
      [33, 0, 0, 0, 0, 0, 0, 0, 0, 0, 0, 0, 11, 1, 0, 0, 0, 0, 0, 0, 0, 0, 0, 0] := by
  refine ⟨by decide, ?_, by decide, by decide⟩
  rfl

/-- C9: an Input message packed with any scroll_delta `d` in
[-32768, 32767] carries the unsigned value `d mod 2^16` on the wire, and
the host's two's-complement fold (`v` if `v < 32768`, else `v - 65536`)
applied by `_handle_input` recovers exactly `d` as the scroll amount
synthesized: the fold inverts the unsigned transmission. -/
theorem c9_scroll_twos_complement :
    ∀ (d x y kc mo : Int) (ts : Nat) (pya : Bool) (st : HostState),
      -32768 ≤ d → d ≤ 32767 → 0 ≤ x → x < 65536 → 0 ≤ y → y < 65536 →
      0 ≤ kc → kc < 65536 → 0 ≤ mo → mo < 256 → ts < 18446744073709551616 →
      st.control_granted = true → pya = true →
      ∃ (w : List Nat) (im : InputMessage),
        InputMessage.pack ts ⟨4, x, y, 0, kc, mo, d⟩ = some w ∧
        InputMessage.unpack (w.drop HEADER_SIZE) = .ok im ∧
        im.scroll_delta = d % 65536 ∧ 0 ≤ im.scroll_delta ∧ im.scroll_delta < 65536 ∧
        handle_input pya st im = [.scroll d x y] := by
  intro d x y kc mo ts pya st hd1 hd2 hx1 hx2 hy1 hy2 hk1 hk2 hm1 hm2 hts hc hpya
  obtain ⟨hp, hu⟩ :=
    input_pack_unpack ⟨4, x, y, 0, kc, mo, d⟩ ts (by norm_num) (by norm_num)
      hx1 hx2 hy1 hy2 (by norm_num) (by norm_num) hk1 hk2 hm1 hm2 hts
  have hdrop : ([33] ++ beQ ts ++ beI 11 ++ inputPayloadBytes ⟨4, x, y, 0, kc, mo, d⟩).drop
      HEADER_SIZE = inputPayloadBytes ⟨4, x, y, 0, kc, mo, d⟩ := by
    simp [beQ, beI, HEADER_SIZE]
  refine ⟨_, ⟨4, x, y, 0, kc, mo, d % 65536⟩, hp, ?_,
    rfl, by show (0 : Int) ≤ d % 65536; omega,
    by show (d % 65536 : Int) < 65536; omega, ?_⟩
  · rw [hdrop, hu]
  · have hfold : (if (d % 65536 : Int) < 32768 then (d % 65536 : Int)
        else d % 65536 - 65536) = d := by
      split_ifs <;> omega
    rw [handle_input]
    simp only [hc, hpya]
    norm_num [hfold]

end RemoteDesktop

namespace RemoteDesktop

theorem except_wrap_isOk (e : Except String ProtoMsg) (rem : List Nat) :
    (match e with
      | .error er => (.error er : Except String (ProtoMsg × List Nat))
      | .ok msg => .ok (msg, rem)).isOk = e.isOk := by
  cases e <;> rfl

theorem map_frame_isOk (e : Except String FrameMessage) :
    (e.map ProtoMsg.frame).isOk = e.isOk := by
  cases e <;> rfl

theorem map_input_isOk (e : Except String InputMessage) :
    (e.map ProtoMsg.input).isOk = e.isOk := by
  cases e <;> rfl

theorem parse_decomposed (jd : Nat → List Nat → Except String ProtoMsg)
    (t h1 h2 h3 h4 h5 h6 h7 h8 l1 l2 l3 l4 : Nat) (rest : List Nat)
    (hmem : messageTypeValues.contains t = true) :
    parse_message jd
        (t :: h1 :: h2 :: h3 :: h4 :: h5 :: h6 :: h7 :: h8 :: l1 :: l2 :: l3 :: l4 :: rest) =
      if rest.length < deI l1 l2 l3 l4 then .error "Incomplete message"
      else
        match classUnpack jd t (rest.take (deI l1 l2 l3 l4)) with
        | .error e => .error e
        | .ok msg => .ok (msg, rest.drop (deI l1 l2 l3 l4)) := by
  have hu : unpack_header (t :: h1 :: h2 :: h3 :: h4 :: h5 :: h6 :: h7 :: h8 ::
      l1 :: l2 :: l3 :: l4 :: rest) =
      .ok (t, deQ h1 h2 h3 h4 h5 h6 h7 h8, deI l1 l2 l3 l4) := by
    simp only [unpack_header]
    rw [if_pos hmem]
  rw [parse_message]
  rw [if_neg (by simp only [List.length_cons, HEADER_SIZE]; omega)]
  simp only [hu]
  by_cases hc : rest.length < deI l1 l2 l3 l4
  · have hcond : (t :: h1 :: h2 :: h3 :: h4 :: h5 :: h6 :: h7 :: h8 ::
        l1 :: l2 :: l3 :: l4 :: rest).length < HEADER_SIZE + deI l1 l2 l3 l4 := by
      simp only [List.length_cons, HEADER_SIZE]
      omega
    rw [if_pos hcond, if_pos hc]
  · have hcond : ¬((t :: h1 :: h2 :: h3 :: h4 :: h5 :: h6 :: h7 :: h8 ::
        l1 :: l2 :: l3 :: l4 :: rest).length < HEADER_SIZE + deI l1 l2 l3 l4) := by
      simp only [List.length_cons, HEADER_SIZE]
      omega
    rw [if_neg hcond, if_neg hc, if_pos hmem]
    have hdrop : (t :: h1 :: h2 :: h3 :: h4 :: h5 :: h6 :: h7 :: h8 ::
        l1 :: l2 :: l3 :: l4 :: rest).drop HEADER_SIZE = rest := rfl
    have hdrop2 : (t :: h1 :: h2 :: h3 :: h4 :: h5 :: h6 :: h7 :: h8 ::
        l1 :: l2 :: l3 :: l4 :: rest).drop (HEADER_SIZE + deI l1 l2 l3 l4) =
        rest.drop (deI l1 l2 l3 l4) := by
      rw [← List.drop_drop, hdrop]
    rw [hdrop, hdrop2]

/-- C8 (amended): the codec's `parse_message` fails exactly when the buffer
is shorter than the 13-byte header, when the buffer is shorter than header
plus declared payload length, when the type byte is not a defined
`MessageType` (see the counterexample — there is no 10 MiB check anywhere
in the codec), or when the per-type decoder rejects its payload (`FRAME`:
fewer than 8 payload bytes; `INPUT`: payload not exactly 11 bytes or an
undefined event/button byte); and the Frame/Input encoders succeed for
every in-range message (they do fail on out-of-range field values — see
the counterexample). -/
theorem c8_parse_failure_conditions :
    (∀ (jd : Nat → List Nat → Except String ProtoMsg) (data : List Nat),
        data.length < HEADER_SIZE → parse_message jd data = .error "Incomplete header") ∧
    (∀ (jd : Nat → List Nat → Except String ProtoMsg) (data : List Nat),
        data.getD 0 0 = 32 → HEADER_SIZE ≤ data.length →
        ((parse_message jd data).isOk = true ↔
          HEADER_SIZE + declaredLen data ≤ data.length ∧ 8 ≤ declaredLen data)) ∧
    (∀ (jd : Nat → List Nat → Except String ProtoMsg) (data : List Nat),
        data.getD 0 0 = 33 → HEADER_SIZE ≤ data.length →
        ((parse_message jd data).isOk = true ↔
          HEADER_SIZE + declaredLen data ≤ data.length ∧ declaredLen data = 11 ∧
          1 ≤ data.getD 13 0 ∧ data.getD 13 0 ≤ 6 ∧ data.getD 18 0 ≤ 2)) ∧
    (∀ (m : InputMessage) (ts : Nat), InputInRange m → ts < 18446744073709551616 →
        (m.pack ts).isSome = true) ∧
    (∀ (m : FrameMessage) (ts : Nat), FrameInRange m → ts < 18446744073709551616 →
        (m.pack ts).isSome = true) := by
  have hdecomp : ∀ (data : List Nat), HEADER_SIZE ≤ data.length →
      ∃ (t h1 h2 h3 h4 h5 h6 h7 h8 l1 l2 l3 l4 : Nat) (rest : List Nat),
        data = t :: h1 :: h2 :: h3 :: h4 :: h5 :: h6 :: h7 :: h8 ::
          l1 :: l2 :: l3 :: l4 :: rest := by
    intro data hlen
    obtain ⟨t, d1, rfl, hl1⟩ := cons_of_succ_le_length data 12 hlen
    obtain ⟨h1, d2, rfl, hl2⟩ := cons_of_succ_le_length d1 11 hl1
    obtain ⟨h2, d3, rfl, hl3⟩ := cons_of_succ_le_length d2 10 hl2
    obtain ⟨h3, d4, rfl, hl4⟩ := cons_of_succ_le_length d3 9 hl3
    obtain ⟨h4, d5, rfl, hl5⟩ := cons_of_succ_le_length d4 8 hl4
    obtain ⟨h5, d6, rfl, hl6⟩ := cons_of_succ_le_length d5 7 hl5
    obtain ⟨h6, d7, rfl, hl7⟩ := cons_of_succ_le_length d6 6 hl6
    obtain ⟨h7, d8, rfl, hl8⟩ := cons_of_succ_le_length d7 5 hl7
    obtain ⟨h8, d9, rfl, hl9⟩ := cons_of_succ_le_length d8 4 hl8
    obtain ⟨l1, d10, rfl, hl10⟩ := cons_of_succ_le_length d9 3 hl9
    obtain ⟨l2, d11, rfl, hl11⟩ := cons_of_succ_le_length d10 2 hl10
    obtain ⟨l3, d12, rfl, hl12⟩ := cons_of_succ_le_length d11 1 hl11
    obtain ⟨l4, rest, rfl, hl13⟩ := cons_of_succ_le_length d12 0 hl12
    exact ⟨t, h1, h2, h3, h4, h5, h6, h7, h8, l1, l2, l3, l4, rest, rfl⟩
  refine ⟨?_, ?_, ?_, ?_, ?_⟩
  · intro jd data h
    rw [parse_message, if_pos h]
  · intro jd data h0 hlen
    obtain ⟨t, h1, h2, h3, h4, h5, h6, h7, h8, l1, l2, l3, l4, rest, rfl⟩ :=
      hdecomp data hlen
    have ht : t = 32 := by simpa [List.getD] using h0
    subst ht
    have hdl : declaredLen (32 :: h1 :: h2 :: h3 :: h4 :: h5 :: h6 :: h7 :: h8 ::
        l1 :: l2 :: l3 :: l4 :: rest) = deI l1 l2 l3 l4 := by
      simp [declaredLen, List.getD]
    rw [parse_decomposed jd 32 h1 h2 h3 h4 h5 h6 h7 h8 l1 l2 l3 l4 rest (by decide), hdl]
    by_cases hc : rest.length < deI l1 l2 l3 l4
    · rw [if_pos hc]
      simp only [Except.isOk, Except.toBool, List.length_cons, HEADER_SIZE]
      constructor
      · intro hfalse
        exact absurd hfalse (by simp)
      · intro hrhs
        omega
    · rw [if_neg hc]
      rw [except_wrap_isOk]
      have hcu : classUnpack jd 32 (rest.take (deI l1 l2 l3 l4)) =
          (FrameMessage.unpack (rest.take (deI l1 l2 l3 l4))).map .frame := by
        rw [classUnpack]
        rfl
      rw [hcu, map_frame_isOk, frame_unpack_isOk]
      simp only [List.length_take, List.length_cons, HEADER_SIZE]
      omega
  · intro jd data h0 hlen
    obtain ⟨t, h1, h2, h3, h4, h5, h6, h7, h8, l1, l2, l3, l4, rest, rfl⟩ :=
      hdecomp data hlen
    have ht : t = 33 := by simpa [List.getD] using h0
    subst ht
    have hdl : declaredLen (33 :: h1 :: h2 :: h3 :: h4 :: h5 :: h6 :: h7 :: h8 ::
        l1 :: l2 :: l3 :: l4 :: rest) = deI l1 l2 l3 l4 := by
      simp [declaredLen, List.getD]
    have hg13 : (33 :: h1 :: h2 :: h3 :: h4 :: h5 :: h6 :: h7 :: h8 ::
        l1 :: l2 :: l3 :: l4 :: rest).getD 13 0 = rest.getD 0 0 := by
      simp [List.getD]
    have hg18 : (33 :: h1 :: h2 :: h3 :: h4 :: h5 :: h6 :: h7 :: h8 ::
        l1 :: l2 :: l3 :: l4 :: rest).getD 18 0 = rest.getD 5 0 := by
      simp [List.getD]
    rw [parse_decomposed jd 33 h1 h2 h3 h4 h5 h6 h7 h8 l1 l2 l3 l4 rest (by decide),
        hdl, hg13, hg18]
    by_cases hc : rest.length < deI l1 l2 l3 l4
    · rw [if_pos hc]
      simp only [Except.isOk, Except.toBool, List.length_cons, HEADER_SIZE]
      constructor
      · intro hfalse
        exact absurd hfalse (by simp)
      · intro hrhs
        omega
    · rw [if_neg hc]
      rw [except_wrap_isOk]
      have hcu : classUnpack jd 33 (rest.take (deI l1 l2 l3 l4)) =
          (InputMessage.unpack (rest.take (deI l1 l2 l3 l4))).map .input := by
        rw [classUnpack]
        rfl
      rw [hcu, map_input_isOk, input_unpack_isOk]
      have htake : ∀ i : Nat, i < deI l1 l2 l3 l4 →
          (rest.take (deI l1 l2 l3 l4)).getD i 0 = rest.getD i 0 := by
        intro i hi
        simp only [List.getD]
        rw [List.get?_take hi]
      simp only [List.length_take, List.length_cons, HEADER_SIZE]
      constructor
      · rintro ⟨ha, hb, hc2, hd2⟩
        have h11 : deI l1 l2 l3 l4 = 11 := by omega
        rw [htake 0 (by omega)] at hb
        rw [htake 0 (by omega)] at hc2
        rw [htake 5 (by omega)] at hd2
        exact ⟨by omega, h11, hb, hc2, hd2⟩
      · rintro ⟨ha, hb, hc2, hd2, he2⟩
        rw [htake 0 (by omega), htake 5 (by omega)]
        exact ⟨by omega, hc2, hd2, he2⟩
  · intro m ts h hts
    obtain ⟨h1, h2, hx1, hx2, hy1, hy2, hb1, hb2, hk1, hk2, hm1, hm2, hs1, hs2⟩ := h
    obtain ⟨hp, -⟩ :=
      input_pack_unpack m ts h1 h2 hx1 hx2 hy1 hy2 hb1 hb2 hk1 hk2 hm1 hm2 hts
    rw [hp]
    rfl
  · intro m ts h hts
    obtain ⟨hw1, hw2, hh1, hh2, hf1, hf2, hd⟩ := h
    obtain ⟨hp, -⟩ := frame_pack_unpack m ts hw1 hw2 hh1 hh2 hf1 hf2 hd hts
    rw [hp]
    rfl

end RemoteDesktop

namespace RemoteDesktop

/-- Witness for C8: each clause evaluated at a concrete buffer or message —
a 2-byte buffer, a complete Frame buffer, a complete Input buffer, and
in-range Input and Frame messages. -/
theorem c8_parse_failure_conditions_witness :
    parse_message (fun _ _ => .error "json") [1, 2] = .error "Incomplete header" ∧
    ((parse_message (fun _ _ => .error "json")
        [32, 0, 0, 0, 0, 0, 0, 0, 0, 0, 0, 0, 8, 0, 1, 0, 2, 0, 0, 0, 9]).isOk = true ↔
      HEADER_SIZE + declaredLen [32, 0, 0, 0, 0, 0, 0, 0, 0, 0, 0, 0, 8,
          0, 1, 0, 2, 0, 0, 0, 9] ≤
        ([32, 0, 0, 0, 0, 0, 0, 0, 0, 0, 0, 0, 8, 0, 1, 0, 2, 0, 0, 0, 9] :
          List Nat).length ∧
      8 ≤ declaredLen [32, 0, 0, 0, 0, 0, 0, 0, 0, 0, 0, 0, 8, 0, 1, 0, 2, 0, 0, 0, 9]) ∧
    ((parse_message (fun _ _ => .error "json")
        [33, 0, 0, 0, 0, 0, 0, 0, 0, 0, 0, 0, 11, 4, 0, 1, 0, 2, 0, 0, 0, 0, 0, 9]).isOk =
        true ↔
      HEADER_SIZE + declaredLen [33, 0, 0, 0, 0, 0, 0, 0, 0, 0, 0, 0, 11,
          4, 0, 1, 0, 2, 0, 0, 0, 0, 0, 9] ≤
        ([33, 0, 0, 0, 0, 0, 0, 0, 0, 0, 0, 0, 11, 4, 0, 1, 0, 2, 0, 0, 0, 0, 0, 9] :
          List Nat).length ∧
      declaredLen [33, 0, 0, 0, 0, 0, 0, 0, 0, 0, 0, 0, 11,
          4, 0, 1, 0, 2, 0, 0, 0, 0, 0, 9] = 11 ∧
      1 ≤ ([33, 0, 0, 0, 0, 0, 0, 0, 0, 0, 0, 0, 11, 4, 0, 1, 0, 2, 0, 0, 0, 0, 0, 9] :
          List Nat).getD 13 0 ∧
      ([33, 0, 0, 0, 0, 0, 0, 0, 0, 0, 0, 0, 11, 4, 0, 1, 0, 2, 0, 0, 0, 0, 0, 9] :
          List Nat).getD 13 0 ≤ 6 ∧
      ([33, 0, 0, 0, 0, 0, 0, 0, 0, 0, 0, 0, 11, 4, 0, 1, 0, 2, 0, 0, 0, 0, 0, 9] :
          List Nat).getD 18 0 ≤ 2) ∧
    (InputMessage.pack 7 ⟨1, 10, 20, 0, 0, 0, 0⟩).isSome = true ∧
    (FrameMessage.pack 7 ⟨640, 480, [1, 2, 3], 44⟩).isSome = true :=
  ⟨c8_parse_failure_conditions.1 (fun _ _ => .error "json") [1, 2] (by decide),
   c8_parse_failure_conditions.2.1 (fun _ _ => .error "json")
     [32, 0, 0, 0, 0, 0, 0, 0, 0, 0, 0, 0, 8, 0, 1, 0, 2, 0, 0, 0, 9]
     (by decide) (by decide),
   c8_parse_failure_conditions.2.2.1 (fun _ _ => .error "json")
     [33, 0, 0, 0, 0, 0, 0, 0, 0, 0, 0, 0, 11, 4, 0, 1, 0, 2, 0, 0, 0, 0, 0, 9]
     (by decide) (by decide),
   c8_parse_failure_conditions.2.2.2.1 ⟨1, 10, 20, 0, 0, 0, 0⟩ 7
     ⟨by decide, by decide, by decide, by decide, by decide, by decide, by decide,
      by decide, by decide, by decide, by decide, by decide, by decide, by decide⟩
     (by decide),
   c8_parse_failure_conditions.2.2.2.2 ⟨640, 480, [1, 2, 3], 44⟩ 7
     ⟨by decide, by decide, by decide, by decide, by decide, by decide, by decide⟩
     (by decide)⟩

/-- Counterexample for C8 as stated: a 13-byte buffer whose type byte 0x07
is not a defined `MessageType` fails parsing although the buffer is not
shorter than the header, its declared payload length 0 is far below 10 MiB,
and no per-type decoder was ever consulted; and the Frame encoder fails on
an out-of-range width, so the encoders are not total either. -/
theorem c8_unknown_type_and_encoder_failure :
    parse_message (fun _ _ => .error "json") [7, 0, 0, 0, 0, 0, 0, 0, 0, 0, 0, 0, 0] =
      .error "7 is not a valid MessageType" ∧
    ¬(([7, 0, 0, 0, 0, 0, 0, 0, 0, 0, 0, 0, 0] : List Nat).length < HEADER_SIZE) ∧
    declaredLen [7, 0, 0, 0, 0, 0, 0, 0, 0, 0, 0, 0, 0] = 0 ∧
    declaredLen [7, 0, 0, 0, 0, 0, 0, 0, 0, 0, 0, 0, 0] ≤ 10 * 1024 * 1024 ∧
    FrameMessage.pack 0 ⟨70000, 1, [], 0⟩ = none := by
  refine ⟨rfl, by decide, by decide, by decide, rfl⟩

/-- Witness for C9: scroll_delta -3 travels as 65533 and is folded back to
-3 by the host. -/
theorem c9_scroll_twos_complement_witness :
    ∃ (w : List Nat) (im : InputMessage),
      InputMessage.pack 0 ⟨4, 1, 2, 0, 0, 0, -3⟩ = some w ∧
      InputMessage.unpack (w.drop HEADER_SIZE) = .ok im ∧
      im.scroll_delta = -3 % 65536 ∧ 0 ≤ im.scroll_delta ∧ im.scroll_delta < 65536 ∧
      handle_input true ⟨true, true, false⟩ im = [.scroll (-3) 1 2] :=
  c9_scroll_twos_complement (-3) 1 2 0 0 0 true ⟨true, true, false⟩
    (by decide) (by decide) (by decide) (by decide) (by decide) (by decide)
    (by decide) (by decide) (by decide) (by decide) (by decide) rfl rfl

end RemoteDesktop
